import Mathlib

/-!
Verification development for the gateway-addon Python library.

The source files under gateway_addon/ are shallowly embedded here:
Python JSON-like values become the inductive type JVal, Python exceptions
become the PyErr error type threaded through Except, and each relevant
Python method becomes a Lean function of the same name operating on an
explicit state record.  Side effects (outbound IPC messages, log lines,
spawned worker threads) are returned as explicit event lists.
-/

namespace GatewayAddon

/-- Values flowing through the system: the JSON data model produced by
json.loads plus Python None/bool/number/str.  Numbers are modelled as exact
rationals (Python ints and floats are collapsed into one numeric type). -/
inductive JVal where
  | null
  | bool (b : Bool)
  | num (q : ℚ)
  | str (s : String)
  | arr (xs : List JVal)
  | obj (kvs : List (String × JVal))
deriving Repr

mutual
/-- Structural (Lean-level) equality test for JVal, used only to obtain a
DecidableEq instance. -/
def JVal.beq : JVal → JVal → Bool
  | .null, .null => true
  | .bool a, .bool b => a == b
  | .num a, .num b => a == b
  | .str a, .str b => a == b
  | .arr xs, .arr ys => JVal.beqList xs ys
  | .obj xs, .obj ys => JVal.beqPairs xs ys
  | _, _ => false
/-- Elementwise JVal.beq on lists. -/
def JVal.beqList : List JVal → List JVal → Bool
  | [], [] => true
  | x :: xs, y :: ys => JVal.beq x y && JVal.beqList xs ys
  | _, _ => false
/-- Elementwise JVal.beq on key-value pair lists. -/
def JVal.beqPairs : List (String × JVal) → List (String × JVal) → Bool
  | [], [] => true
  | (k, v) :: xs, (k2, v2) :: ys => k == k2 && JVal.beq v v2 && JVal.beqPairs xs ys
  | _, _ => false
end

mutual
/-- JVal.beq decides equality (Prop-valued helper kept as a def so the
DecidableEq instance below can be defined before the theorem section). -/
def JVal.beq_iff : ∀ a b : JVal, JVal.beq a b = true ↔ a = b
  | .null, b => by cases b <;> simp [JVal.beq]
  | .bool a, b => by cases b <;> simp [JVal.beq]
  | .num a, b => by cases b <;> simp [JVal.beq]
  | .str a, b => by cases b <;> simp [JVal.beq]
  | .arr xs, b => by
      cases b <;> simp only [JVal.beq, Bool.false_eq_true, false_iff, reduceCtorEq,
        not_false_eq_true, JVal.arr.injEq]
      exact JVal.beqList_iff xs _
  | .obj xs, b => by
      cases b <;> simp only [JVal.beq, Bool.false_eq_true, false_iff, reduceCtorEq,
        not_false_eq_true, JVal.obj.injEq]
      exact JVal.beqPairs_iff xs _
/-- List version of JVal.beq_iff. -/
def JVal.beqList_iff : ∀ xs ys : List JVal, JVal.beqList xs ys = true ↔ xs = ys
  | [], ys => by cases ys <;> simp [JVal.beqList]
  | x :: xs, ys => by
      cases ys with
      | nil => simp [JVal.beqList]
      | cons y ys =>
          simp only [JVal.beqList, Bool.and_eq_true, List.cons.injEq]
          rw [JVal.beq_iff x y, JVal.beqList_iff xs ys]
/-- Pair-list version of JVal.beq_iff. -/
def JVal.beqPairs_iff :
    ∀ xs ys : List (String × JVal), JVal.beqPairs xs ys = true ↔ xs = ys
  | [], ys => by cases ys <;> simp [JVal.beqPairs]
  | (k, v) :: xs, ys => by
      cases ys with
      | nil => simp [JVal.beqPairs]
      | cons y ys =>
          obtain ⟨k2, v2⟩ := y
          simp only [JVal.beqPairs, Bool.and_eq_true, List.cons.injEq, Prod.mk.injEq,
            beq_iff_eq]
          rw [JVal.beq_iff v v2, JVal.beqPairs_iff xs ys]
          try tauto
end

instance : DecidableEq JVal := fun a b => decidable_of_iff _ (JVal.beq_iff a b)

/-- Containment of one character list in another (Python substring test). -/
def charsContain (needle : List Char) : List Char → Bool
  | [] => needle.isEmpty
  | c :: rest => needle.isPrefixOf (c :: rest) || charsContain needle rest

/-- Reasons carried by a raised PropertyError.  The source raises with a
formatted message string; the model carries the same information
structurally (the offending constraint value where the message interpolates
it). -/
inductive PropReason where
  | readOnly
  | ltMinimum (m : JVal)
  | gtMaximum (m : JVal)
  | notMultipleOf (m : JVal)
  | invalidEnum
deriving DecidableEq, Repr

/-- Python exceptions that the embedded code can raise.  The typed add-on
errors from errors.py appear alongside the built-in exceptions that the
untyped dictionary code can produce. -/
inductive PyErr where
  | typeError
  | keyError (k : String)
  | nameError
  | zeroDivisionError
  | propertyError (r : PropReason)
  | actionError
  | setPinError (reason : String)
  | setCredentialsError (reason : String)
  | notifyError
deriving DecidableEq, Repr

deriving instance DecidableEq for Except

/-- Hashable-scalar test: a routing key of this shape avoids the
TypeError that Python raises when an unhashable value (list or dict) is
used in a dictionary membership test. -/
def JVal.isScalar : JVal → Bool
  | .null => true
  | .bool _ => true
  | .num _ => true
  | .str _ => true
  | .arr _ => false
  | .obj _ => false

/-- Numeric view of a value: Python bool is a subtype of int, so True and
False behave as 1 and 0 in arithmetic and comparisons. -/
def JVal.toNumQ : JVal → Option ℚ
  | .num q => some q
  | .bool b => some (if b then 1 else 0)
  | _ => none

mutual
/-- Python equality (the == operator) on the embedded values: numbers and
booleans compare numerically, strings compare as strings, lists compare
elementwise, mismatched types compare unequal without raising.  Dictionary
comparison is modelled up to key order (JSON-parsed dictionaries; every
comparison exercised by the claims is on scalars or lists). -/
def pyEq : JVal → JVal → Bool
  | .null, .null => true
  | .bool a, .bool b => a == b
  | .bool a, .num q => (if a then (1 : ℚ) else 0) == q
  | .num q, .bool b => q == (if b then (1 : ℚ) else 0)
  | .num a, .num b => a == b
  | .str a, .str b => a == b
  | .arr xs, .arr ys => pyEqList xs ys
  | .obj xs, .obj ys => pyEqPairs xs ys
  | _, _ => false
/-- Python list equality: elementwise pyEq. -/
def pyEqList : List JVal → List JVal → Bool
  | [], [] => true
  | x :: xs, y :: ys => pyEq x y && pyEqList xs ys
  | _, _ => false
/-- Python equality on key-value pair lists. -/
def pyEqPairs : List (String × JVal) → List (String × JVal) → Bool
  | [], [] => true
  | (k, v) :: xs, (k2, v2) :: ys => k == k2 && pyEq v v2 && pyEqPairs xs ys
  | _, _ => false
end

/-- Python truthiness (bool(v) and the implicit test of an if statement). -/
def pyTruthy : JVal → Bool
  | .null => false
  | .bool b => b
  | .num q => q != 0
  | .str s => s != ""
  | .arr xs => !xs.isEmpty
  | .obj kvs => !kvs.isEmpty

mutual
/-- Python ordering (the < operator): numbers and booleans compare
numerically, strings lexicographically, lists lexicographically via pyEq
and pyLt; any other combination raises TypeError. -/
def pyLt : JVal → JVal → Except PyErr Bool
  | .arr xs, .arr ys => pyLtList xs ys
  | .str s, .str t => .ok (decide (s < t))
  | a, b =>
      match a.toNumQ, b.toNumQ with
      | some x, some y => .ok (decide (x < y))
      | _, _ => .error .typeError
/-- Lexicographic list ordering for pyLt. -/
def pyLtList : List JVal → List JVal → Except PyErr Bool
  | [], [] => .ok false
  | [], _ :: _ => .ok true
  | _ :: _, [] => .ok false
  | x :: xs, y :: ys => if pyEq x y then pyLtList xs ys else pyLt x y
end

/-- Python a > b behaves as b < a for the value shapes in scope. -/
def pyGt (a b : JVal) : Except PyErr Bool := pyLt b a

/-- Python true division on values: numeric operands only, division by zero
raises ZeroDivisionError.  Exact rational arithmetic stands in for floats. -/
def pyDiv (a b : JVal) : Except PyErr ℚ :=
  match a.toNumQ, b.toNumQ with
  | some x, some y => if y = 0 then .error .zeroDivisionError else .ok (x / y)
  | _, _ => .error .typeError

/-- Python len(): defined for strings, lists and dictionaries; TypeError on
anything unsized. -/
def pyLen : JVal → Except PyErr ℕ
  | .arr xs => .ok xs.length
  | .str s => .ok s.length
  | .obj kvs => .ok kvs.length
  | _ => .error .typeError

/-- Python round() to the nearest integer, ties to even (banker's
rounding), on the exact rational model of floats. -/
def pyRound (q : ℚ) : ℤ :=
  let f := q.floor
  let frac := q - f
  if frac < 1/2 then f
  else if 1/2 < frac then f + 1
  else if f % 2 = 0 then f else f + 1

/-- Python membership (v in c): substring test on strings, elementwise
equality on lists, key lookup on dictionaries (string keys; unhashable
candidates raise TypeError), TypeError on non-containers. -/
def pyContainsVal (v : JVal) : JVal → Except PyErr Bool
  | .arr xs => .ok (xs.any fun e => pyEq v e)
  | .str s =>
      match v with
      | .str t => .ok (charsContain t.data s.data)
      | _ => .error .typeError
  | .obj kvs =>
      match v with
      | .str t => .ok (kvs.lookup t).isSome
      | .num _ => .ok false
      | .bool _ => .ok false
      | .null => .ok false
      | _ => .error .typeError
  | _ => .error .typeError

/-- Python membership test for a string key (k in c). -/
def pyContains (k : String) (c : JVal) : Except PyErr Bool :=
  pyContainsVal (.str k) c

/-- Python subscript c[k] with a string key: dictionary lookup, KeyError
when absent, TypeError on non-dictionaries. -/
def pyGetItemKey (c : JVal) (k : String) : Except PyErr JVal :=
  match c with
  | .obj kvs =>
      match kvs.lookup k with
      | some v => .ok v
      | none => .error (.keyError k)
  | _ => .error .typeError

/-- Python subscript c[k] with an arbitrary value as key (the key reached
the code as JSON): only string keys can hit in the string-keyed
dictionaries in scope; unhashable keys raise TypeError. -/
def pyGetItem (c : JVal) (k : JVal) : Except PyErr JVal :=
  match k with
  | .str s => pyGetItemKey c s
  | _ =>
      match c with
      | .obj _ => .error .typeError
      | _ => .error .typeError

/-- Python dictionary assignment d[k] = v on an association list: replaces
the value of an existing key in place, appends otherwise. -/
def dinsert (k : String) (v : JVal) : List (String × JVal) → List (String × JVal)
  | [] => [(k, v)]
  | (k2, v2) :: rest => if k2 = k then (k, v) :: rest else (k2, v2) :: dinsert k v rest

/-- Lookup of a JSON key in a string-keyed registry or dictionary where the
key arrived as an arbitrary JSON value: a string key is looked up, other
hashable scalars never match the string keys, and unhashable keys raise
TypeError (Python dict.get with an unhashable argument). -/
def pyDictGet {α : Type} (reg : List (String × α)) (k : JVal) : Except PyErr (Option α) :=
  match k with
  | .str s => .ok (reg.lookup s)
  | .num _ => .ok none
  | .bool _ => .ok none
  | .null => .ok none
  | _ => .error .typeError

/-- Removal of a key from a string-keyed association list (Python del). -/
def dremove {α : Type} (k : String) (reg : List (String × α)) : List (String × α) :=
  reg.filter fun kv => kv.1 ≠ k

/-- Message type constants used by the embedded code.

Modelled from the spec: constants.py builds the MessageType values
dynamically from the schema files (properties.messageType.const of each
message schema), and the schema directory is not part of src/; per the
spec these are named constants enumerated by the root schema.  The model
assigns each named constant a distinct integer code. -/
inductive MT where
  | PLUGIN_REGISTER_REQUEST
  | PLUGIN_REGISTER_RESPONSE
  | PLUGIN_UNLOAD_REQUEST
  | PLUGIN_UNLOAD_RESPONSE
  | PLUGIN_ERROR_NOTIFICATION
  | ADAPTER_ADDED_NOTIFICATION
  | ADAPTER_UNLOAD_REQUEST
  | ADAPTER_UNLOAD_RESPONSE
  | ADAPTER_START_PAIRING_COMMAND
  | ADAPTER_CANCEL_PAIRING_COMMAND
  | ADAPTER_PAIRING_PROMPT_NOTIFICATION
  | ADAPTER_UNPAIRING_PROMPT_NOTIFICATION
  | ADAPTER_REMOVE_DEVICE_REQUEST
  | ADAPTER_REMOVE_DEVICE_RESPONSE
  | ADAPTER_CANCEL_REMOVE_DEVICE_COMMAND
  | DEVICE_ADDED_NOTIFICATION
  | DEVICE_PROPERTY_CHANGED_NOTIFICATION
  | DEVICE_ACTION_STATUS_NOTIFICATION
  | DEVICE_EVENT_NOTIFICATION
  | DEVICE_CONNECTED_STATE_NOTIFICATION
  | DEVICE_SET_PROPERTY_COMMAND
  | DEVICE_REQUEST_ACTION_REQUEST
  | DEVICE_REQUEST_ACTION_RESPONSE
  | DEVICE_REMOVE_ACTION_REQUEST
  | DEVICE_REMOVE_ACTION_RESPONSE
  | DEVICE_SET_PIN_REQUEST
  | DEVICE_SET_PIN_RESPONSE
  | DEVICE_SET_CREDENTIALS_REQUEST
  | DEVICE_SET_CREDENTIALS_RESPONSE
  | NOTIFIER_ADDED_NOTIFICATION
  | NOTIFIER_UNLOAD_REQUEST
  | NOTIFIER_UNLOAD_RESPONSE
  | OUTLET_ADDED_NOTIFICATION
  | OUTLET_REMOVED_NOTIFICATION
  | OUTLET_NOTIFY_REQUEST
  | OUTLET_NOTIFY_RESPONSE
  | API_HANDLER_ADDED_NOTIFICATION
  | API_HANDLER_UNLOAD_REQUEST
  | API_HANDLER_UNLOAD_RESPONSE
  | API_HANDLER_API_REQUEST
  | API_HANDLER_API_RESPONSE
deriving DecidableEq, Repr

/-- Distinct integer code of each message type constant (see MT). -/
def MT.code : MT → ℕ
  | .PLUGIN_REGISTER_REQUEST => 1
  | .PLUGIN_REGISTER_RESPONSE => 2
  | .PLUGIN_UNLOAD_REQUEST => 3
  | .PLUGIN_UNLOAD_RESPONSE => 4
  | .PLUGIN_ERROR_NOTIFICATION => 5
  | .ADAPTER_ADDED_NOTIFICATION => 6
  | .ADAPTER_UNLOAD_REQUEST => 7
  | .ADAPTER_UNLOAD_RESPONSE => 8
  | .ADAPTER_START_PAIRING_COMMAND => 9
  | .ADAPTER_CANCEL_PAIRING_COMMAND => 10
  | .ADAPTER_PAIRING_PROMPT_NOTIFICATION => 11
  | .ADAPTER_UNPAIRING_PROMPT_NOTIFICATION => 12
  | .ADAPTER_REMOVE_DEVICE_REQUEST => 13
  | .ADAPTER_REMOVE_DEVICE_RESPONSE => 14
  | .ADAPTER_CANCEL_REMOVE_DEVICE_COMMAND => 15
  | .DEVICE_ADDED_NOTIFICATION => 16
  | .DEVICE_PROPERTY_CHANGED_NOTIFICATION => 17
  | .DEVICE_ACTION_STATUS_NOTIFICATION => 18
  | .DEVICE_EVENT_NOTIFICATION => 19
  | .DEVICE_CONNECTED_STATE_NOTIFICATION => 20
  | .DEVICE_SET_PROPERTY_COMMAND => 21
  | .DEVICE_REQUEST_ACTION_REQUEST => 22
  | .DEVICE_REQUEST_ACTION_RESPONSE => 23
  | .DEVICE_REMOVE_ACTION_REQUEST => 24
  | .DEVICE_REMOVE_ACTION_RESPONSE => 25
  | .DEVICE_SET_PIN_REQUEST => 26
  | .DEVICE_SET_PIN_RESPONSE => 27
  | .DEVICE_SET_CREDENTIALS_REQUEST => 28
  | .DEVICE_SET_CREDENTIALS_RESPONSE => 29
  | .NOTIFIER_ADDED_NOTIFICATION => 30
  | .NOTIFIER_UNLOAD_REQUEST => 31
  | .NOTIFIER_UNLOAD_RESPONSE => 32
  | .OUTLET_ADDED_NOTIFICATION => 33
  | .OUTLET_REMOVED_NOTIFICATION => 34
  | .OUTLET_NOTIFY_REQUEST => 35
  | .OUTLET_NOTIFY_RESPONSE => 36
  | .API_HANDLER_ADDED_NOTIFICATION => 37
  | .API_HANDLER_UNLOAD_REQUEST => 38
  | .API_HANDLER_UNLOAD_RESPONSE => 39
  | .API_HANDLER_API_REQUEST => 40
  | .API_HANDLER_API_RESPONSE => 41

/-- Wire value of a message type constant as it appears in a JSON
envelope's messageType field. -/
def MT.wire (m : MT) : JVal := .num m.code

/-- Outbound IPC message: AddonManagerProxy.send serializes a message type
and a data dictionary (after stamping the plugin id into it). -/
structure OutMsg where
  messageType : MT
  data : List (String × JVal)
deriving DecidableEq, Repr

/-- AddonManagerProxy.send: stamps pluginId into the data dictionary and
writes the envelope to the plugin socket (transport write modelled as the
returned message; an NNError on write is caught and only logged in the
source, so no exception propagates from send). -/
def proxySend (pluginId : String) (mt : MT) (data : List (String × JVal)) : OutMsg :=
  { messageType := mt, data := dinsert "pluginId" (.str pluginId) data }

/-- Back-references from a Property to its owning Device, Adapter and
plugin, flattened into an explicit context record (the source reaches them
through prop.device.adapter and the manager proxy singleton). -/
structure DeviceCtx where
  pluginId : String
  adapterId : String
  deviceId : String
deriving DecidableEq, Repr

/-- State of a Property instance (property.py).  The device back-reference
is factored out into DeviceCtx. -/
structure Property where
  name : String
  value : JVal
  description : List (String × JVal)
  visible : JVal
  fire_and_forget : Bool
deriving DecidableEq, Repr

/-- Canonical description fields copied by the Property constructor. -/
def propertyFields : List String :=
  ["title", "type", "@type", "unit", "description", "minimum", "maximum",
   "enum", "readOnly", "multipleOf", "links"]

/-- Description-normalization part of Property.__init__: legacy keys min,
max and label are copied to their canonical names first, then every
canonical field present in the input is copied (overwriting a legacy
value). -/
def Property.initDescription (description : List (String × JVal)) :
    List (String × JVal) :=
  let d0 : List (String × JVal) := []
  let d1 := match description.lookup "min" with
    | some v => dinsert "minimum" v d0
    | none => d0
  let d2 := match description.lookup "max" with
    | some v => dinsert "maximum" v d1
    | none => d1
  let d3 := match description.lookup "label" with
    | some v => dinsert "title" v d2
    | none => d2
  propertyFields.foldl
    (fun d f =>
      match description.lookup f with
      | some v => dinsert f v d
      | none => d)
    d3

/-- Property.__init__: initial value None, visible defaults to True (the
deprecated visible member is copied verbatim when present), fire_and_forget
False, and the description dictionary built by initDescription. -/
def Property.init (name : String) (description : List (String × JVal)) : Property :=
  { name := name
    value := .null
    visible := (description.lookup "visible").getD (.bool true)
    fire_and_forget := false
    description := Property.initDescription description }

/-- Property.as_dict: name/value/visible base dictionary updated with every
description entry. -/
def Property.as_dict (p : Property) : List (String × JVal) :=
  p.description.foldl (fun d kv => dinsert kv.1 kv.2 d)
    [("name", .str p.name), ("value", p.value), ("visible", p.visible)]

/-- AddonManagerProxy.send_property_changed_notification: wraps the
property's as_dict snapshot with its adapter and device ids. -/
def send_property_changed_notification (ctx : DeviceCtx) (p : Property) : OutMsg :=
  proxySend ctx.pluginId .DEVICE_PROPERTY_CHANGED_NOTIFICATION
    [("adapterId", .str ctx.adapterId), ("deviceId", .str ctx.deviceId),
     ("property", .obj p.as_dict)]

/-- Property.set_cached_value: a declared boolean type forces boolean
coercion of the stored value; every other type stores the value as-is. -/
def Property.set_cached_value (p : Property) (value : JVal) : Property :=
  match p.description.lookup "type" with
  | some t =>
      if pyEq t (.str "boolean") then { p with value := .bool (pyTruthy value) }
      else { p with value := value }
  | none => { p with value := value }

/-- Property.set_cached_value_and_notify: stores the (possibly coerced)
value, compares it with the old cached value using Python inequality, and
notifies the owning device (which forwards a property-changed notification
through the manager proxy) only when the value changed.  Returns the new
state, the has-changed flag, and the emitted notifications. -/
def Property.set_cached_value_and_notify (ctx : DeviceCtx) (p : Property)
    (value : JVal) : Property × Bool × List OutMsg :=
  let old_value := p.value
  let p2 := p.set_cached_value value
  let has_changed := !pyEq old_value p2.value
  (p2, has_changed,
   if has_changed then [send_property_changed_notification ctx p2] else [])

/-- First set_value check: 'readOnly' in the description and its value
truthy raises PropertyError unconditionally. -/
def Property.checkReadOnly (p : Property) : Except PyErr Unit :=
  match p.description.lookup "readOnly" with
  | some ro =>
      if pyTruthy ro then .error (.propertyError .readOnly) else .ok ()
  | none => .ok ()

/-- Second set_value check: a declared minimum above the candidate raises
(the Python comparison itself can raise TypeError on mixed types). -/
def Property.checkMinimum (p : Property) (value : JVal) : Except PyErr Unit :=
  match p.description.lookup "minimum" with
  | some m =>
      match pyLt value m with
      | .error e => .error e
      | .ok true => .error (.propertyError (.ltMinimum m))
      | .ok false => .ok ()
  | none => .ok ()

/-- Third set_value check: a declared maximum below the candidate raises. -/
def Property.checkMaximum (p : Property) (value : JVal) : Except PyErr Unit :=
  match p.description.lookup "maximum" with
  | some m =>
      match pyGt value m with
      | .error e => .error e
      | .ok true => .error (.propertyError (.gtMaximum m))
      | .ok false => .ok ()
  | none => .ok ()

/-- Fourth set_value check: with a declared multipleOf, the candidate is
rejected unless candidate divided by multipleOf, minus its rounding to the
nearest integer, is exactly zero (division-based check as in the source,
which avoids the modulus operator). -/
def Property.checkMultipleOf (p : Property) (value : JVal) : Except PyErr Unit :=
  match p.description.lookup "multipleOf" with
  | some m =>
      match pyDiv value m with
      | .error e => .error e
      | .ok r =>
          if r - (pyRound r : ℚ) ≠ 0 then .error (.propertyError (.notMultipleOf m))
          else .ok ()
  | none => .ok ()

/-- Fifth set_value check: a declared non-empty enum that excludes the
candidate raises. -/
def Property.checkEnum (p : Property) (value : JVal) : Except PyErr Unit :=
  match p.description.lookup "enum" with
  | some e =>
      match pyLen e with
      | .error err => .error err
      | .ok n =>
          if n > 0 then
            match pyContainsVal value e with
            | .error err => .error err
            | .ok mem =>
                if !mem then .error (.propertyError .invalidEnum) else .ok ()
          else .ok ()
  | none => .ok ()

/-- Constraint-check phase of Property.set_value, in source order:
readOnly, minimum, maximum, multipleOf, enum.  Every check precedes the
mutation in the source, so the checks are factored into this pure
function; an error here is the PropertyError (or built-in exception)
raised by set_value, and the first failing check short-circuits the
rest. -/
def Property.checkValue (p : Property) (value : JVal) : Except PyErr Unit := do
  p.checkReadOnly
  p.checkMinimum value
  p.checkMaximum value
  p.checkMultipleOf value
  p.checkEnum value

/-- Outcome of the readOnly test on the stored description. -/
def Property.failsReadOnly (p : Property) : Bool :=
  match p.description.lookup "readOnly" with
  | some ro => pyTruthy ro
  | none => false

/-- Property.set_value: runs the ordered constraint checks and, on
success, stores and notifies via set_cached_value_and_notify.  Returns the
raised exception or unit, the resulting property state, and the emitted
notifications (a raise leaves the state untouched because all checks
precede the mutation). -/
def Property.set_value (ctx : DeviceCtx) (p : Property) (value : JVal) :
    Except PyErr Unit × Property × List OutMsg :=
  match p.checkValue value with
  | .error e => (.error e, p, [])
  | .ok _ =>
      let (p2, _, outs) := Property.set_cached_value_and_notify ctx p value
      (.ok (), p2, outs)

/-- State of an Action instance (action.py).  Timestamps: utils.timestamp
returns the current UTC wall-clock time as a string; the model passes each
clock reading in as an explicit natural number (the string format used by
the source preserves chronological order). -/
structure Action where
  id : JVal
  name : JVal
  input : JVal
  status : String
  time_requested : ℕ
  time_completed : Option ℕ
deriving DecidableEq, Repr

/-- Action.__init__: status created, request time stamped, no completion
time. -/
def Action.init (id_ : JVal) (name : JVal) (input_ : JVal) (now : ℕ) : Action :=
  { id := id_, name := name, input := input_, status := "created",
    time_requested := now, time_completed := none }

/-- Action.as_dict: the wire form of the action used by status
notifications. -/
def Action.as_dict (a : Action) : List (String × JVal) :=
  [("id", a.id), ("name", a.name), ("input", a.input), ("status", .str a.status),
   ("timeRequested", .num a.time_requested),
   ("timeCompleted", a.time_completed.elim JVal.null fun t => .num t)]

/-- AddonManagerProxy.send_action_status_notification: wraps the action's
as_dict snapshot with its adapter and device ids. -/
def send_action_status_notification (ctx : DeviceCtx) (a : Action) : OutMsg :=
  proxySend ctx.pluginId .DEVICE_ACTION_STATUS_NOTIFICATION
    [("adapterId", .str ctx.adapterId), ("deviceId", .str ctx.deviceId),
     ("action", .obj a.as_dict)]

/-- Action.start: status becomes pending and the device is notified
(device.action_notify forwards a status notification). -/
def Action.start (ctx : DeviceCtx) (a : Action) : Action × List OutMsg :=
  let a2 := { a with status := "pending" }
  (a2, [send_action_status_notification ctx a2])

/-- Action.finish: status becomes completed, the completion time is
stamped, and the device is notified. -/
def Action.finish (ctx : DeviceCtx) (a : Action) (now : ℕ) : Action × List OutMsg :=
  let a2 := { a with status := "completed", time_completed := some now }
  (a2, [send_action_status_notification ctx a2])

/-- State of a Device instance (device.py). -/
structure Device where
  id : String
  name : String
  type : String
  context : String
  atType : List JVal
  description : String
  properties : List (String × Property)
  actions : List (String × JVal)
  events : List (String × JVal)
  base_href : JVal
  pin_required : Bool
  pin_pattern : JVal
  credentials_required : Bool
deriving DecidableEq, Repr

/-- Device.as_dict: the wire description of a device. -/
def Device.as_dict (d : Device) : JVal :=
  .obj [("id", .str d.id), ("name", .str d.name), ("type", .str d.type),
        ("@context", .str d.context), ("@type", .arr d.atType),
        ("description", .str d.description),
        ("properties", .obj (d.properties.map fun kv => (kv.1, .obj kv.2.as_dict))),
        ("actions", .obj d.actions), ("events", .obj d.events),
        ("baseHref", d.base_href),
        ("pin", .obj [("required", .bool d.pin_required), ("pattern", d.pin_pattern)]),
        ("credentialsRequired", .bool d.credentials_required)]

/-- Device.find_property: properties.get(property_name, None); the name
arrived as JSON, so an unhashable name raises TypeError. -/
def Device.find_property (d : Device) (property_name : JVal) :
    Except PyErr (Option Property) :=
  pyDictGet d.properties property_name

/-- Functional stand-in for the in-place mutation of the Property object
found under the given key in the device's property dictionary. -/
def Device.writeProp (d : Device) (property_name : JVal) (p : Property) : Device :=
  match property_name with
  | .str s =>
      { d with properties := d.properties.map fun kv => if kv.1 = s then (kv.1, p) else kv }
  | _ => d

/-- Device.request_action: an undeclared action name is silently ignored;
a declared input schema is validated by the external jsonschema library
(passed in as the schemaOk parameter) and a validation failure silently
returns; otherwise the Action object is constructed (status created) and
handed to perform_action, which in the base class does nothing.  Returns
the constructed Action when one was created. -/
def Device.request_action (schemaOk : JVal → JVal → Bool) (now : ℕ) (d : Device)
    (action_id action_name action_input : JVal) : Except PyErr (Option Action) := do
  let meta? ← pyDictGet d.actions action_name
  match meta? with
  | none => pure none
  | some metadata => do
      let hasInput ← pyContains "input" metadata
      if hasInput then do
        let schema ← pyGetItemKey metadata "input"
        if schemaOk action_input schema then
          pure (some (Action.init action_id action_name action_input now))
        else
          pure none
      else
        pure (some (Action.init action_id action_name action_input now))

/-- Device.remove_action: an undeclared action name is silently ignored;
otherwise cancel_action runs, which in the base class does nothing. -/
def Device.remove_action (d : Device) (action_id action_name : JVal) :
    Except PyErr Unit := do
  let meta? ← pyDictGet d.actions action_name
  match meta? with
  | none => pure ()
  | some _ => pure ()

/-- State of an Outlet instance (outlet.py). -/
structure Outlet where
  id : String
  name : String
deriving DecidableEq, Repr

/-- State of a Notifier instance (notifier.py). -/
structure Notifier where
  id : String
  package_name : String
  outlets : List (String × Outlet)
  ready : Bool
deriving DecidableEq, Repr

/-- State of an APIHandler instance (api_handler.py). -/
structure APIHandler where
  package_name : String
deriving DecidableEq, Repr

/-- State of an Adapter instance (adapter.py). -/
structure Adapter where
  id : String
  name : String
  package_name : String
  devices : List (String × Device)
  ready : Bool
deriving DecidableEq, Repr

/-- Adapter.get_device: devices.get(device_id, None); the id arrived as
JSON, so an unhashable id raises TypeError. -/
def Adapter.get_device (a : Adapter) (device_id : JVal) : Except PyErr (Option Device) :=
  pyDictGet a.devices device_id

/-- Functional stand-in for the in-place mutation of the Device object
found under the given key in the adapter's device dictionary. -/
def Adapter.writeDevice (a : Adapter) (device_id : JVal) (d : Device) : Adapter :=
  match device_id with
  | .str s =>
      { a with devices := a.devices.map fun kv => if kv.1 = s then (kv.1, d) else kv }
  | _ => a

/-- Adapter.handle_device_removed: drops the device from the registry when
present and sends the remove-device response through the proxy. -/
def Adapter.handle_device_removed (pluginId : String) (a : Adapter) (dev : Device) :
    Adapter × List OutMsg :=
  ({ a with devices := dremove dev.id a.devices },
   [proxySend pluginId .ADAPTER_REMOVE_DEVICE_RESPONSE
      [("adapterId", .str a.id), ("deviceId", .str dev.id)]])

/-- Adapter.remove_thing: re-resolves the device and, when present, logs
and runs handle_device_removed; a missing device is silently ignored. -/
def Adapter.remove_thing (pluginId : String) (a : Adapter) (device_id : JVal) :
    Except PyErr (Adapter × List OutMsg) := do
  let dev? ← a.get_device device_id
  match dev? with
  | none => pure (a, [])
  | some dev => pure (Adapter.handle_device_removed pluginId a dev)

/-- Adapter.cancel_remove_thing: re-resolves the device and, when present,
only logs; nothing is sent either way. -/
def Adapter.cancel_remove_thing (a : Adapter) (device_id : JVal) :
    Except PyErr (Adapter × List OutMsg) := do
  let _dev? ← a.get_device device_id
  pure (a, [])

/-- Adapter.set_pin (base class): resolves the device; when present it
logs a line built by string concatenation with the pin (a non-string pin
makes that concatenation raise TypeError); when absent it raises
SetPinError. -/
def Adapter.set_pin (a : Adapter) (device_id pin : JVal) : Except PyErr Unit := do
  let dev? ← a.get_device device_id
  match dev? with
  | some _ =>
      match pin with
      | .str _ => pure ()
      | _ => throw .typeError
  | none => throw (.setPinError "Device not found")

/-- Adapter.set_credentials (base class): resolves the device; when
present it logs a line built by string concatenation with the username and
password (non-string values make that concatenation raise TypeError); when
absent it raises SetCredentialsError. -/
def Adapter.set_credentials (a : Adapter) (device_id username password : JVal) :
    Except PyErr Unit := do
  let dev? ← a.get_device device_id
  match dev? with
  | some _ =>
      match username, password with
      | .str _, .str _ => pure ()
      | _, _ => throw .typeError
  | none => throw (.setCredentialsError "Device not found")

/-- Worker body set_prop_fn spawned for a set-property command: re-resolve
the device and the property (silently return when either is missing), run
the constraint-checked set_value; on success proactively send a
property-changed notification when the property is fire-and-forget; on
PropertyError send a property-changed notification with the property's
(unchanged) state.  Any other exception escapes the worker. -/
def set_prop_fn (pluginId : String) (a : Adapter) (device_id : JVal) (data : JVal) :
    Except PyErr (Adapter × List OutMsg) := do
  let dev? ← a.get_device device_id
  match dev? with
  | none => pure (a, [])
  | some dev => do
      let pname ← pyGetItemKey data "propertyName"
      let prop? ← dev.find_property pname
      match prop? with
      | none => pure (a, [])
      | some prop => do
          let value ← pyGetItemKey data "propertyValue"
          let ctx : DeviceCtx := ⟨pluginId, a.id, dev.id⟩
          match Property.set_value ctx prop value with
          | (.ok _, p2, outs) =>
              let outs2 :=
                if p2.fire_and_forget then
                  outs ++ [send_property_changed_notification ctx p2]
                else outs
              pure (a.writeDevice device_id (dev.writeProp pname p2), outs2)
          | (.error (.propertyError _), p2, outs) =>
              pure (a.writeDevice device_id (dev.writeProp pname p2),
                    outs ++ [send_property_changed_notification ctx p2])
          | (.error e, _, _) => throw e

/-- Worker body request_action_fn spawned for a request-action request:
extract the action id and name, re-resolve the device, run
Device.request_action when the device is present, and send a success
response in either case; an ActionError from the device is caught and
turned into a failure response. -/
def request_action_fn (schemaOk : JVal → JVal → Bool) (now : ℕ) (pluginId : String)
    (adapter_id : JVal) (a : Adapter) (device_id : JVal) (data : JVal) :
    Except PyErr (Adapter × List OutMsg) := do
  let action_id ← pyGetItemKey data "actionId"
  let action_name ← pyGetItemKey data "actionName"
  let attempt : Except PyErr Unit := do
    let dev? ← a.get_device device_id
    match dev? with
    | none => pure ()
    | some dev => do
        let hasInput ← pyContains "input" data
        let action_input ← if hasInput then pyGetItemKey data "input" else pure JVal.null
        let _ ← dev.request_action schemaOk now action_id action_name action_input
        pure ()
  match attempt with
  | .ok _ =>
      pure (a, [proxySend pluginId .DEVICE_REQUEST_ACTION_RESPONSE
        [("adapterId", adapter_id), ("deviceId", device_id),
         ("actionName", action_name), ("actionId", action_id),
         ("success", .bool true)]])
  | .error .actionError =>
      pure (a, [proxySend pluginId .DEVICE_REQUEST_ACTION_RESPONSE
        [("adapterId", adapter_id), ("deviceId", device_id),
         ("actionName", action_name), ("actionId", action_id),
         ("success", .bool false)]])
  | .error e => throw e

/-- Worker body remove_action_fn spawned for a remove-action request:
extract the ids, re-resolve the device, run Device.remove_action when the
device is present, and send a success response in either case; an
ActionError is caught and turned into a failure response. -/
def remove_action_fn (pluginId : String) (adapter_id : JVal) (a : Adapter)
    (device_id : JVal) (data : JVal) : Except PyErr (Adapter × List OutMsg) := do
  let action_id ← pyGetItemKey data "actionId"
  let action_name ← pyGetItemKey data "actionName"
  let message_id ← pyGetItemKey data "messageId"
  let attempt : Except PyErr Unit := do
    let dev? ← a.get_device device_id
    match dev? with
    | none => pure ()
    | some dev => dev.remove_action action_id action_name
  match attempt with
  | .ok _ =>
      pure (a, [proxySend pluginId .DEVICE_REMOVE_ACTION_RESPONSE
        [("adapterId", adapter_id), ("actionName", action_name),
         ("actionId", action_id), ("messageId", message_id),
         ("deviceId", device_id), ("success", .bool true)]])
  | .error .actionError =>
      pure (a, [proxySend pluginId .DEVICE_REMOVE_ACTION_RESPONSE
        [("adapterId", adapter_id), ("actionName", action_name),
         ("actionId", action_id), ("messageId", message_id),
         ("deviceId", device_id), ("success", .bool false)]])
  | .error e => throw e

/-- Worker body set_pin_fn spawned for a set-pin request: extract the
message id, delegate to Adapter.set_pin; on success re-resolve the device
and send a success response carrying its refreshed description; a
SetPinError is caught and turned into a failure response referencing the
device id. -/
def set_pin_fn (pluginId : String) (a : Adapter) (device_id : JVal) (data : JVal) :
    Except PyErr (Adapter × List OutMsg) := do
  let message_id ← pyGetItemKey data "messageId"
  let attempt : Except PyErr JVal := do
    let pin ← pyGetItemKey data "pin"
    a.set_pin device_id pin
    let dev? ← a.get_device device_id
    match dev? with
    | some dev => pure dev.as_dict
    | none => throw .typeError
  match attempt with
  | .ok devDict =>
      pure (a, [proxySend pluginId .DEVICE_SET_PIN_RESPONSE
        [("device", devDict), ("messageId", message_id),
         ("adapterId", .str a.id), ("success", .bool true)]])
  | .error (.setPinError _) =>
      pure (a, [proxySend pluginId .DEVICE_SET_PIN_RESPONSE
        [("deviceId", device_id), ("messageId", message_id),
         ("adapterId", .str a.id), ("success", .bool false)]])
  | .error e => throw e

/-- Worker body set_credentials_fn spawned for a set-credentials request:
extract the message id, delegate to Adapter.set_credentials; on success
re-resolve the device and send a success response carrying its refreshed
description; a SetCredentialsError is caught and turned into a failure
response referencing the device id. -/
def set_credentials_fn (pluginId : String) (a : Adapter) (device_id : JVal)
    (data : JVal) : Except PyErr (Adapter × List OutMsg) := do
  let message_id ← pyGetItemKey data "messageId"
  let attempt : Except PyErr JVal := do
    let username ← pyGetItemKey data "username"
    let password ← pyGetItemKey data "password"
    a.set_credentials device_id username password
    let dev? ← a.get_device device_id
    match dev? with
    | some dev => pure dev.as_dict
    | none => throw .typeError
  match attempt with
  | .ok devDict =>
      pure (a, [proxySend pluginId .DEVICE_SET_CREDENTIALS_RESPONSE
        [("device", devDict), ("messageId", message_id),
         ("adapterId", .str a.id), ("success", .bool true)]])
  | .error (.setCredentialsError _) =>
      pure (a, [proxySend pluginId .DEVICE_SET_CREDENTIALS_RESPONSE
        [("deviceId", device_id), ("messageId", message_id),
         ("adapterId", .str a.id), ("success", .bool false)]])
  | .error e => throw e

/-- Worker body for an adapter-unload request: run the unload hook (base
class only logs) and send the unload response. -/
def adapter_unload_fn (pluginId : String) (a : Adapter) : List OutMsg :=
  [proxySend pluginId .ADAPTER_UNLOAD_RESPONSE [("adapterId", .str a.id)]]

/-- Worker body for a notifier-unload request: run the unload hook (base
class only logs) and send the unload response. -/
def notifier_unload_fn (pluginId : String) (n : Notifier) : List OutMsg :=
  [proxySend pluginId .NOTIFIER_UNLOAD_RESPONSE [("notifierId", .str n.id)]]

/-- Worker body for an api-handler-unload request: run the unload hook
(base class only logs) and send the unload response. -/
def api_handler_unload_fn (pluginId : String) (h : APIHandler) : List OutMsg :=
  [proxySend pluginId .API_HANDLER_UNLOAD_RESPONSE
    [("packageName", .str h.package_name)]]

/-- Worker body notify_fn spawned for an outlet-notify request: resolve
the outlet within the captured notifier (silently return when missing),
extract the message id and the notification arguments, call
Outlet.notify (the base class only logs, so NotifyError is never raised
by it) and send a success response; a NotifyError would be turned into a
failure response. -/
def notify_fn (pluginId : String) (n : Notifier) (notifier_id : JVal) (data : JVal) :
    Except PyErr (List OutMsg) := do
  let outlet_id ← pyGetItemKey data "outletId"
  let outlet? ← pyDictGet n.outlets outlet_id
  match outlet? with
  | none => pure []
  | some _outlet => do
      let message_id ← pyGetItemKey data "messageId"
      let _title ← pyGetItemKey data "title"
      let _message ← pyGetItemKey data "message"
      let _level ← pyGetItemKey data "level"
      pure [proxySend pluginId .OUTLET_NOTIFY_RESPONSE
        [("notifierId", notifier_id), ("outletId", outlet_id),
         ("messageId", message_id), ("success", .bool true)]]

/-- Worker body request_fn spawned for an api-handler request: extract the
message id, build the APIRequest from the request dictionary (a non-object
raises TypeError when splatted as keyword arguments), call the handler
(the base class returns a 404 APIResponse) and send its to_json form. -/
def api_request_fn (pluginId : String) (_h : APIHandler) (package_name : JVal)
    (data : JVal) : Except PyErr (List OutMsg) := do
  let message_id ← pyGetItemKey data "messageId"
  let req ← pyGetItemKey data "request"
  match req with
  | .obj _ =>
      pure [proxySend pluginId .API_HANDLER_API_RESPONSE
        [("packageName", package_name), ("messageId", message_id),
         ("response", .obj [("status", .num 404), ("contentType", .null),
                            ("content", .null)])]]
  | _ => throw .typeError

/-- State of the AddonManagerProxy singleton. -/
structure ProxyState where
  plugin_id : String
  running : Bool
  adapters : List (String × Adapter)
  notifiers : List (String × Notifier)
  api_handlers : List (String × APIHandler)
deriving DecidableEq, Repr

/-- Worker thread spawned by the receive loop, together with the values
its closure captured at dispatch time (entity objects are captured by
reference; their state at run time is supplied when the corresponding
worker-body function is applied). -/
inductive Spawn where
  | closeWorker
  | unloadApiHandler (h : APIHandler)
  | apiRequest (h : APIHandler) (package_name : JVal) (data : JVal)
  | unloadNotifier (n : Notifier)
  | outletNotify (n : Notifier) (notifier_id : JVal) (data : JVal)
  | startPairing (a : Adapter) (timeout : JVal)
  | cancelPairing (a : Adapter)
  | unloadAdapter (a : Adapter)
  | removeDevice (a : Adapter) (device_id : JVal)
  | cancelRemoveDevice (a : Adapter) (device_id : JVal)
  | setProperty (a : Adapter) (device_id : JVal) (data : JVal)
  | requestAction (a : Adapter) (adapter_id device_id : JVal) (data : JVal)
  | removeAction (a : Adapter) (adapter_id device_id : JVal) (data : JVal)
  | setPin (a : Adapter) (device_id : JVal) (data : JVal)
  | setCredentials (a : Adapter) (device_id : JVal) (data : JVal)
deriving DecidableEq, Repr

/-- Continuation of the receive loop after one iteration. -/
inductive LoopCtl where
  | next
  | stop
deriving DecidableEq, Repr

/-- Result of one iteration of AddonManagerProxy.recv: the registry state
after dispatch-time mutations, the messages sent synchronously from the
loop, the log lines printed, the workers spawned, and whether the loop
continues. -/
structure StepResult where
  state : ProxyState
  outs : List OutMsg
  logs : List String
  spawns : List Spawn
  ctl : LoopCtl
deriving DecidableEq, Repr

/-- Input of one receive-loop iteration: a transport-level receive error,
an empty (falsy) read, a JSON parse failure, or a parsed JSON value. -/
inductive RecvIn where
  | recvError
  | empty
  | jsonError
  | msg (j : JVal)
deriving DecidableEq, Repr

/-- One iteration of the AddonManagerProxy.recv receive loop, transcribed
branch for branch from the source.  An exception escaping the loop body
(and thereby killing the receive thread) is returned as an error. -/
def recvStep (st : ProxyState) (incoming : RecvIn) : Except PyErr StepResult := do
  match incoming with
  | .recvError =>
      pure { state := st, outs := [],
             logs := ["AddonManagerProxy: Error receiving message from socket"],
             spawns := [], ctl := .stop }
  | .empty =>
      pure { state := st, outs := [], logs := [], spawns := [], ctl := .stop }
  | .jsonError =>
      pure { state := st, outs := [],
             logs := ["AddonManagerProxy: Error parsing message as JSON"],
             spawns := [], ctl := .next }
  | .msg j => do
      let hasMT ← pyContains "messageType" j
      if !hasMT then
        pure { state := st, outs := [],
               logs := ["AddonManagerProxy: Invalid message"],
               spawns := [], ctl := .next }
      else do
        let msg_type ← pyGetItemKey j "messageType"
        if pyEq msg_type (MT.wire .PLUGIN_UNLOAD_REQUEST) then
          pure { state := st,
                 outs := [proxySend st.plugin_id .PLUGIN_UNLOAD_RESPONSE []],
                 logs := [], spawns := [.closeWorker], ctl := .stop }
        else do
          let hasData ← pyContains "data" j
          if !hasData then
            pure { state := st, outs := [],
                   logs := ["AddonManagerProxy: data not present in message"],
                   spawns := [], ctl := .next }
          else if pyEq msg_type (MT.wire .API_HANDLER_UNLOAD_REQUEST) then do
            let data ← pyGetItemKey j "data"
            let package_name ← pyGetItemKey data "packageName"
            let h? ← pyDictGet st.api_handlers package_name
            match h? with
            | none =>
                pure { state := st, outs := [],
                       logs := ["AddonManager: Unrecognized handler, ignoring message."],
                       spawns := [], ctl := .next }
            | some handler =>
                pure { state := { st with
                         api_handlers := dremove handler.package_name st.api_handlers },
                       outs := [], logs := [],
                       spawns := [.unloadApiHandler handler], ctl := .next }
          else if pyEq msg_type (MT.wire .API_HANDLER_API_REQUEST) then do
            let data ← pyGetItemKey j "data"
            let package_name ← pyGetItemKey data "packageName"
            let h? ← pyDictGet st.api_handlers package_name
            match h? with
            | none =>
                pure { state := st, outs := [],
                       logs := ["AddonManager: Unrecognized handler, ignoring message."],
                       spawns := [], ctl := .next }
            | some handler =>
                pure { state := st, outs := [], logs := [],
                       spawns := [.apiRequest handler package_name data], ctl := .next }
          else do
            let data ← pyGetItemKey j "data"
            let hasNid ← pyContains "notifierId" data
            if hasNid then do
              let notifier_id ← pyGetItemKey data "notifierId"
              let n? ← pyDictGet st.notifiers notifier_id
              match n? with
              | none =>
                  pure { state := st, outs := [],
                         logs := ["AddonManagerProxy: Unrecognized notifier, ignoring message."],
                         spawns := [], ctl := .next }
              | some notifier =>
                  if pyEq msg_type (MT.wire .NOTIFIER_UNLOAD_REQUEST) then
                    pure { state := { st with
                             notifiers := dremove notifier.id st.notifiers },
                           outs := [], logs := [],
                           spawns := [.unloadNotifier notifier], ctl := .next }
                  else if pyEq msg_type (MT.wire .OUTLET_NOTIFY_REQUEST) then
                    pure { state := st, outs := [], logs := [],
                           spawns := [.outletNotify notifier notifier_id data],
                           ctl := .next }
                  else
                    pure { state := st, outs := [], logs := [], spawns := [],
                           ctl := .next }
            else do
              let hasAid ← pyContains "adapterId" data
              if !hasAid then
                pure { state := st, outs := [],
                       logs := ["AddonManagerProxy: Adapter ID not present in message."],
                       spawns := [], ctl := .next }
              else do
                let adapter_id ← pyGetItemKey data "adapterId"
                let a? ← pyDictGet st.adapters adapter_id
                match a? with
                | none =>
                    pure { state := st, outs := [],
                           logs := ["AddonManagerProxy: Unrecognized adapter, ignoring message."],
                           spawns := [], ctl := .next }
                | some adapter =>
                    if pyEq msg_type (MT.wire .ADAPTER_START_PAIRING_COMMAND) then do
                      let timeout ← pyGetItemKey data "timeout"
                      pure { state := st, outs := [], logs := [],
                             spawns := [.startPairing adapter timeout], ctl := .next }
                    else if pyEq msg_type (MT.wire .ADAPTER_CANCEL_PAIRING_COMMAND) then
                      pure { state := st, outs := [], logs := [],
                             spawns := [.cancelPairing adapter], ctl := .next }
                    else if pyEq msg_type (MT.wire .ADAPTER_UNLOAD_REQUEST) then
                      pure { state := { st with
                               adapters := dremove adapter.id st.adapters },
                             outs := [], logs := [],
                             spawns := [.unloadAdapter adapter], ctl := .next }
                    else do
                      let hasData2 ← pyContains "data" j
                      let noDev ←
                        if !hasData2 then pure true
                        else do
                          let hasDid ← pyContains "deviceId" data
                          pure !hasDid
                      if noDev then
                        pure { state := st, outs := [],
                               logs := ["AddonManagerProxy: No deviceId present in message, ignoring."],
                               spawns := [], ctl := .next }
                      else do
                        let device_id ← pyGetItemKey data "deviceId"
                        if pyEq msg_type (MT.wire .ADAPTER_REMOVE_DEVICE_REQUEST) then
                          pure { state := st, outs := [], logs := [],
                                 spawns := [.removeDevice adapter device_id],
                                 ctl := .next }
                        else if pyEq msg_type (MT.wire .ADAPTER_CANCEL_REMOVE_DEVICE_COMMAND) then
                          pure { state := st, outs := [], logs := [],
                                 spawns := [.cancelRemoveDevice adapter device_id],
                                 ctl := .next }
                        else if pyEq msg_type (MT.wire .DEVICE_SET_PROPERTY_COMMAND) then
                          pure { state := st, outs := [], logs := [],
                                 spawns := [.setProperty adapter device_id data],
                                 ctl := .next }
                        else if pyEq msg_type (MT.wire .DEVICE_REQUEST_ACTION_REQUEST) then
                          pure { state := st, outs := [], logs := [],
                                 spawns := [.requestAction adapter adapter_id device_id data],
                                 ctl := .next }
                        else if pyEq msg_type (MT.wire .DEVICE_REMOVE_ACTION_REQUEST) then
                          pure { state := st, outs := [], logs := [],
                                 spawns := [.removeAction adapter adapter_id device_id data],
                                 ctl := .next }
                        else if pyEq msg_type (MT.wire .DEVICE_SET_PIN_REQUEST) then
                          pure { state := st, outs := [], logs := [],
                                 spawns := [.setPin adapter device_id data],
                                 ctl := .next }
                        else if pyEq msg_type (MT.wire .DEVICE_SET_CREDENTIALS_REQUEST) then
                          pure { state := st, outs := [], logs := [],
                                 spawns := [.setCredentials adapter device_id data],
                                 ctl := .next }
                        else
                          pure { state := st, outs := [], logs := [], spawns := [],
                                 ctl := .next }

/-- Events of the deferred close worker and the unload step, ordered as
they happen. -/
inductive TraceEv where
  | send (m : OutMsg)
  | sleepSeconds (q : ℚ)
  | clearRunning
  | closeSocket (name : String)
deriving DecidableEq, Repr

/-- AddonManagerProxy.close: clears the running flag and closes both IPC
sockets (an NNError while closing is swallowed). -/
def AddonManagerProxy.close (st : ProxyState) : ProxyState × List TraceEv :=
  ({ st with running := false },
   [.clearRunning, .closeSocket "manager_socket", .closeSocket "plugin_socket"])

/-- Deferred worker close_fn spawned by the unload branch: sleeps half a
second (giving the unload response time to be sent and received) and then
closes the proxy. -/
def close_fn (st : ProxyState) : ProxyState × List TraceEv :=
  let (st2, evs) := AddonManagerProxy.close st
  (st2, .sleepSeconds (1/2) :: evs)

/-- Combined event order of one receive-loop iteration followed by its
spawned close worker: the loop's sends happen in program order before the
spawn, a spawned thread's first event cannot precede its spawn point, and
after spawning the close worker the loop breaks without further events, so
the worker's events follow every loop event in every interleaving. -/
def stepCloseTrace (res : StepResult) : List TraceEv :=
  res.outs.map TraceEv.send ++
    (res.spawns.map fun s =>
      match s with
      | .closeWorker => (close_fn res.state).2
      | _ => []).flatten

/-- State of the IpcClient (ipc.py, websocket transport). -/
structure IpcState where
  plugin_id : String
  registered : Bool
  gateway_version : JVal
  user_profile : JVal
  preferences : JVal
deriving DecidableEq, Repr

/-- Observable effect of one IpcClient.on_message call. -/
inductive IpcEffect where
  | log (line : String)
  | deliver (msg : JVal)
deriving DecidableEq, Repr

/-- IpcClient.on_message: decode the frame as JSON (a decode failure is
caught by the except ValueError handler, whose print statement then
formats the unbound local resp and raises UnboundLocalError out of the
handler, modelled as nameError); validate against the message schema (the
external jsonschema validator is the validate parameter; a validation
failure is caught and logged); a register-response stores the session
parameters and sets the registered flag; every other validated message is
passed to the owner message handler. -/
def IpcClient.on_message (validate : JVal → Bool) (st : IpcState)
    (raw : Option JVal) : Except PyErr (IpcState × List IpcEffect) :=
  match raw with
  | none => .error .nameError
  | some resp =>
      if validate resp then do
        let mt ← pyGetItemKey resp "messageType"
        if pyEq mt (MT.wire .PLUGIN_REGISTER_RESPONSE) then do
          let data ← pyGetItemKey resp "data"
          let gv ← pyGetItemKey data "gatewayVersion"
          let up ← pyGetItemKey data "userProfile"
          let prefs ← pyGetItemKey data "preferences"
          pure ({ st with gateway_version := gv, user_profile := up,
                          preferences := prefs, registered := true }, [])
        else
          pure (st, [.deliver resp])
      else
        pure (st, [.log "Invalid message received"])

/-- Spec-side minimum check (specification section 4.4, step 2): numeric
minimum present and candidate below it rejects. -/
def specMinCheck (mn : Option ℚ) (q : ℚ) : Option PropReason :=
  match mn with
  | some m => if q < m then some (.ltMinimum (.num m)) else none
  | none => none

/-- Spec-side maximum check (specification section 4.4, step 3): numeric
maximum present and candidate above it rejects. -/
def specMaxCheck (mx : Option ℚ) (q : ℚ) : Option PropReason :=
  match mx with
  | some m => if m < q then some (.gtMaximum (.num m)) else none
  | none => none

/-- Spec-side multiple-of check (specification section 4.4, step 4):
reject unless candidate divided by multipleOf is an integer (exact
rational arithmetic models the floating-point tolerance). -/
def specMultCheck (mo : Option ℚ) (q : ℚ) : Option PropReason :=
  match mo with
  | some m => if (q / m).den ≠ 1 then some (.notMultipleOf (.num m)) else none
  | none => none

/-- Spec-side enum check (specification section 4.4, step 5): a declared
non-empty enumeration that excludes the candidate rejects. -/
def specEnumCheck (en : Option (List JVal)) (q : ℚ) : Option PropReason :=
  match en with
  | some es =>
      if es.length > 0 && !(es.any fun e => pyEq (.num q) e) then some .invalidEnum
      else none
  | none => none

/-- Spec-side restatement of the ordered constraint checks of
specification section 4.4: readOnly, then minimum, then maximum, then
multipleOf, then enum; the first failing check determines the reason.
Stated from the specification's wording for comparison with the
source-derived Property.checkValue. -/
def specOrderedCheck (ro : Bool) (mn mx mo : Option ℚ) (en : Option (List JVal))
    (q : ℚ) : Option PropReason :=
  if ro then some .readOnly
  else
    match specMinCheck mn q with
    | some r => some r
    | none =>
        match specMaxCheck mx q with
        | some r => some r
        | none =>
            match specMultCheck mo q with
            | some r => some r
            | none => specEnumCheck en q

/-- Message types the receive loop routes explicitly; any inbound
messageType that compares unequal to all of them is unknown to the
router. -/
def routedTypes : List MT :=
  [.PLUGIN_UNLOAD_REQUEST, .API_HANDLER_UNLOAD_REQUEST, .API_HANDLER_API_REQUEST,
   .NOTIFIER_UNLOAD_REQUEST, .OUTLET_NOTIFY_REQUEST,
   .ADAPTER_START_PAIRING_COMMAND, .ADAPTER_CANCEL_PAIRING_COMMAND,
   .ADAPTER_UNLOAD_REQUEST, .ADAPTER_REMOVE_DEVICE_REQUEST,
   .ADAPTER_CANCEL_REMOVE_DEVICE_COMMAND, .DEVICE_SET_PROPERTY_COMMAND,
   .DEVICE_REQUEST_ACTION_REQUEST, .DEVICE_REMOVE_ACTION_REQUEST,
   .DEVICE_SET_PIN_REQUEST, .DEVICE_SET_CREDENTIALS_REQUEST]

/-- Unknown-messageType test for the receive loop: true when the wire
value compares equal (Python ==) to none of the routed types. -/
def unknownMsgType (mt : JVal) : Prop :=
  ∀ m ∈ routedTypes, pyEq mt (MT.wire m) = false

instance (mt : JVal) : Decidable (unknownMsgType mt) := by
  unfold unknownMsgType
  infer_instance

/-! Theorems.  General lemmas about the Python-semantics helpers come
first, then the claim theorems with their witnesses. -/

mutual
/-- Python equality is reflexive on the embedded values. -/
theorem pyEq_refl : ∀ v : JVal, pyEq v v = true
  | .null => rfl
  | .bool b => by simp [pyEq]
  | .num q => by simp [pyEq]
  | .str s => by simp [pyEq]
  | .arr xs => by simp only [pyEq]; exact pyEqList_refl xs
  | .obj kvs => by simp only [pyEq]; exact pyEqPairs_refl kvs
/-- List version of pyEq_refl. -/
theorem pyEqList_refl : ∀ xs : List JVal, pyEqList xs xs = true
  | [] => rfl
  | x :: xs => by
      simp only [pyEqList, Bool.and_eq_true]
      exact ⟨pyEq_refl x, pyEqList_refl xs⟩
/-- Pair-list version of pyEq_refl. -/
theorem pyEqPairs_refl : ∀ xs : List (String × JVal), pyEqPairs xs xs = true
  | [] => rfl
  | (k, v) :: xs => by
      simp only [pyEqPairs, Bool.and_eq_true, beq_self_eq_true, true_and]
      exact ⟨pyEq_refl v, pyEqPairs_refl xs⟩
end

@[simp]
theorem except_bind_ok {ε α β : Type} (a : α) (f : α → Except ε β) :
    (Except.ok a >>= f) = f a := rfl

@[simp]
theorem except_bind_error {ε α β : Type} (e : ε) (f : α → Except ε β) :
    ((Except.error e : Except ε α) >>= f) = .error e := rfl

@[simp]
theorem except_pure {ε α : Type} (a : α) : (pure a : Except ε α) = Except.ok a := rfl

/-- Computation rule for pyLt on two numbers. -/
theorem pyLt_num (a b : ℚ) : pyLt (.num a) (.num b) = .ok (decide (a < b)) := rfl

/-- Computation rule for pyDiv on two numbers. -/
theorem pyDiv_num (a b : ℚ) :
    pyDiv (.num a) (.num b) =
      if b = 0 then .error .zeroDivisionError else .ok (a / b) := rfl

/-- Batteries' floor on rationals agrees with the mathematical floor. -/
theorem ratFloor_eq_intFloor (q : ℚ) : q.floor = ⌊q⌋ := by
  rw [Rat.floor_def', Rat.floor_def]

/-- pyRound fixes integers. -/
theorem pyRound_intCast (k : ℤ) : pyRound (k : ℚ) = k := by
  unfold pyRound
  rw [ratFloor_eq_intFloor, Int.floor_intCast]
  norm_num

/-- pyRound reproduces its argument exactly when the argument is an
integer. -/
theorem pyRound_cast_eq_iff (q : ℚ) : (pyRound q : ℚ) = q ↔ q.den = 1 := by
  constructor
  · intro h
    rw [← h]
    exact Rat.den_intCast _
  · intro h
    have h2 : (q.num : ℚ) = q := by
      conv_rhs => rw [← Rat.num_div_den q]
      rw [h]
      simp
    rw [← h2, pyRound_intCast]

/-- The division-based multiple-of test of the source is exactly the
integrality of the quotient in the rational model. -/
theorem sub_pyRound_ne_zero_iff (r : ℚ) : r - (pyRound r : ℚ) ≠ 0 ↔ r.den ≠ 1 := by
  rw [sub_ne_zero, ne_comm]
  exact not_congr (pyRound_cast_eq_iff r)

/-- Integrality of a quotient as divisibility, for a nonzero divisor. -/
theorem den_div_eq_one_iff (q m : ℚ) (hm : m ≠ 0) :
    (q / m).den = 1 ↔ ∃ k : ℤ, q = (k : ℚ) * m := by
  constructor
  · intro h
    refine ⟨(q / m).num, ?_⟩
    have h2 : ((q / m).num : ℚ) = q / m := by
      conv_rhs => rw [← Rat.num_div_den (q / m)]
      rw [h]
      simp
    rw [h2]
    field_simp
  · rintro ⟨k, rfl⟩
    rw [mul_div_assoc, div_self hm, mul_one, Rat.den_intCast]

/-- Lookup after dinsert at the same key. -/
theorem dinsert_lookup_self (k : String) (v : JVal) (d : List (String × JVal)) :
    (dinsert k v d).lookup k = some v := by
  induction d with
  | nil => simp [dinsert, List.lookup]
  | cons kv rest ih =>
      obtain ⟨k2, v2⟩ := kv
      by_cases h : k2 = k
      · subst h
        simp [dinsert, List.lookup]
      · have hb : (k == k2) = false := by simp [Ne.symm h]
        simp [dinsert, h, List.lookup, hb, ih]

/-- Lookup after dinsert at a different key. -/
theorem dinsert_lookup_ne (k2 k : String) (hne : k2 ≠ k) (v : JVal)
    (d : List (String × JVal)) : (dinsert k v d).lookup k2 = d.lookup k2 := by
  have hb : (k2 == k) = false := by simp [hne]
  induction d with
  | nil => simp [dinsert, List.lookup, hb]
  | cons kv rest ih =>
      obtain ⟨k3, v3⟩ := kv
      by_cases h : k3 = k
      · subst h
        simp [dinsert, List.lookup, hb]
      · simp [dinsert, h, List.lookup, ih]

/-- The readOnly check fails exactly when failsReadOnly holds. -/
theorem checkReadOnly_eq (p : Property) :
    p.checkReadOnly =
      if p.failsReadOnly then .error (.propertyError .readOnly) else .ok () := by
  unfold Property.checkReadOnly Property.failsReadOnly
  cases p.description.lookup "readOnly" with
  | none => simp
  | some ro => by_cases h : pyTruthy ro <;> simp [h]

/-- The minimum check agrees with the spec-side minimum check on numeric
descriptions and candidates. -/
theorem checkMinimum_spec (p : Property) (mn : Option ℚ) (q : ℚ)
    (hmn : p.description.lookup "minimum" = mn.map JVal.num) :
    p.checkMinimum (.num q) =
      match specMinCheck mn q with
      | some r => .error (.propertyError r)
      | none => .ok () := by
  unfold Property.checkMinimum specMinCheck
  rw [hmn]
  cases mn with
  | none => simp
  | some m =>
      simp only [Option.map_some']
      rw [pyLt_num]
      by_cases h : q < m <;> simp [h]

/-- The maximum check agrees with the spec-side maximum check on numeric
descriptions and candidates. -/
theorem checkMaximum_spec (p : Property) (mx : Option ℚ) (q : ℚ)
    (hmx : p.description.lookup "maximum" = mx.map JVal.num) :
    p.checkMaximum (.num q) =
      match specMaxCheck mx q with
      | some r => .error (.propertyError r)
      | none => .ok () := by
  unfold Property.checkMaximum specMaxCheck
  rw [hmx]
  cases mx with
  | none => simp
  | some m =>
      simp only [Option.map_some']
      unfold pyGt
      rw [pyLt_num]
      by_cases h : m < q <;> simp [h]

/-- The multiple-of check agrees with the spec-side check on numeric
descriptions and candidates, for a nonzero divisor. -/
theorem checkMultipleOf_spec (p : Property) (mo : Option ℚ) (q : ℚ)
    (hmo : p.description.lookup "multipleOf" = mo.map JVal.num)
    (hmo0 : ∀ m, mo = some m → m ≠ 0) :
    p.checkMultipleOf (.num q) =
      match specMultCheck mo q with
      | some r => .error (.propertyError r)
      | none => .ok () := by
  unfold Property.checkMultipleOf specMultCheck
  rw [hmo]
  cases mo with
  | none => simp
  | some m =>
      have hm : m ≠ 0 := hmo0 m rfl
      simp only [Option.map_some']
      rw [pyDiv_num]
      simp only [hm, if_false]
      by_cases h : (q / m).den = 1
      · simp [h, (sub_pyRound_ne_zero_iff (q / m)).not_left.mpr, not_not.mpr h,
          not_not]
      · simp [h, (sub_pyRound_ne_zero_iff (q / m)).mpr h]

/-- The enum check agrees with the spec-side check on list-valued enum
descriptions and numeric candidates. -/
theorem checkEnum_spec (p : Property) (en : Option (List JVal)) (q : ℚ)
    (hen : p.description.lookup "enum" = en.map JVal.arr) :
    p.checkEnum (.num q) =
      match specEnumCheck en q with
      | some r => .error (.propertyError r)
      | none => .ok () := by
  unfold Property.checkEnum specEnumCheck
  rw [hen]
  cases en with
  | none => simp
  | some es =>
      simp only [Option.map_some', pyLen, pyContainsVal]
      by_cases h1 : es.length > 0
      · by_cases h2 : es.any fun e => pyEq (.num q) e
        · simp [h1, h2]
        · simp [h1, h2]
      · simp [h1, Nat.le_zero.mp (Nat.not_lt.mp h1)]

/-- Short-circuit: a failing readOnly check is the outcome of the whole
check chain. -/
theorem checkValue_readOnly_error (p : Property) (v : JVal)
    (h : p.failsReadOnly = true) :
    p.checkValue v = .error (.propertyError .readOnly) := by
  have h1 := checkReadOnly_eq p
  rw [h, if_pos rfl] at h1
  unfold Property.checkValue
  rw [h1]
  rfl

/-- Characterization of the full check chain by the spec-side ordered
check, on numeric descriptions and candidates. -/
theorem checkValue_spec (p : Property) (mn mx mo : Option ℚ)
    (en : Option (List JVal)) (q : ℚ)
    (hmn : p.description.lookup "minimum" = mn.map JVal.num)
    (hmx : p.description.lookup "maximum" = mx.map JVal.num)
    (hmo : p.description.lookup "multipleOf" = mo.map JVal.num)
    (hmo0 : ∀ m, mo = some m → m ≠ 0)
    (hen : p.description.lookup "enum" = en.map JVal.arr) :
    p.checkValue (.num q) =
      match specOrderedCheck p.failsReadOnly mn mx mo en q with
      | some r => .error (.propertyError r)
      | none => .ok () := by
  unfold Property.checkValue specOrderedCheck
  rw [checkReadOnly_eq p]
  cases hro : p.failsReadOnly with
  | true => simp
  | false =>
      simp only [if_false, except_bind_ok, Bool.false_eq_true]
      rw [checkMinimum_spec p mn q hmn]
      cases specMinCheck mn q with
      | some r => simp
      | none =>
          simp only [except_bind_ok]
          rw [checkMaximum_spec p mx q hmx]
          cases specMaxCheck mx q with
          | some r => simp
          | none =>
              simp only [except_bind_ok]
              rw [checkMultipleOf_spec p mo q hmo hmo0]
              cases specMultCheck mo q with
              | some r => simp
              | none =>
                  simp only [except_bind_ok]
                  rw [checkEnum_spec p en q hen]

/-- Claim C2: for every Property and candidate value, set_value raises a
PropertyError exactly when one of the ordered checks fails (readOnly,
minimum, maximum, multipleOf, non-empty enum, in that order, the first
failing check determining the reason), and whenever it raises the cached
value is unchanged; in particular a truthy readOnly makes set_value raise
for every candidate.  Stated for numeric constraints and candidates (the
shapes produced by the wire protocol; a nonzero multipleOf avoids Python's
ZeroDivisionError). -/
theorem c2_set_value_ordered_checks (ctx : DeviceCtx) (p : Property)
    (mn mx mo : Option ℚ) (en : Option (List JVal)) (q : ℚ)
    (hmn : p.description.lookup "minimum" = mn.map JVal.num)
    (hmx : p.description.lookup "maximum" = mx.map JVal.num)
    (hmo : p.description.lookup "multipleOf" = mo.map JVal.num)
    (hmo0 : ∀ m, mo = some m → m ≠ 0)
    (hen : p.description.lookup "enum" = en.map JVal.arr) :
    (∀ w, p.failsReadOnly = true →
        Property.set_value ctx p w = (.error (.propertyError .readOnly), p, [])) ∧
    (match specOrderedCheck p.failsReadOnly mn mx mo en q with
     | some r =>
         Property.set_value ctx p (.num q) = (.error (.propertyError r), p, [])
     | none => (Property.set_value ctx p (.num q)).1 = .ok ()) := by
  constructor
  · intro w hro
    unfold Property.set_value
    rw [checkValue_readOnly_error p w hro]
  · have h := checkValue_spec p mn mx mo en q hmn hmx hmo hmo0 hen
    unfold Property.set_value
    cases hspec : specOrderedCheck p.failsReadOnly mn mx mo en q with
    | some r =>
        rw [hspec] at h
        rw [h]
    | none =>
        rw [hspec] at h
        rw [h]

/-- Witness for claim C2: a brightness property with maximum 100 rejects
candidate 150 with the maximum reason and its state is unchanged. -/
theorem c2_set_value_ordered_checks_witness :
    (∀ w, (Property.init "brightness" [("maximum", JVal.num 100)]).failsReadOnly = true →
        Property.set_value ⟨"pl", "a1", "d1"⟩
            (Property.init "brightness" [("maximum", JVal.num 100)]) w =
          (.error (.propertyError .readOnly),
           Property.init "brightness" [("maximum", JVal.num 100)], [])) ∧
    (match specOrderedCheck
        (Property.init "brightness" [("maximum", JVal.num 100)]).failsReadOnly
        none (some 100) none none 150 with
     | some r =>
         Property.set_value ⟨"pl", "a1", "d1"⟩
             (Property.init "brightness" [("maximum", JVal.num 100)]) (.num 150) =
           (.error (.propertyError r),
            Property.init "brightness" [("maximum", JVal.num 100)], [])
     | none =>
         (Property.set_value ⟨"pl", "a1", "d1"⟩
             (Property.init "brightness" [("maximum", JVal.num 100)]) (.num 150)).1 =
           .ok ()) :=
  c2_set_value_ordered_checks ⟨"pl", "a1", "d1"⟩
    (Property.init "brightness" [("maximum", JVal.num 100)])
    none (some 100) none none 150 rfl rfl rfl (by simp) rfl

/-- Claim C3: for a property with a multipleOf constraint m and a
candidate passing the other checks, set_value accepts exactly the integer
multiples of m (exact rational arithmetic models the floating-point
tolerance of the division-based source check). -/
theorem c3_multiple_of_divisibility (ctx : DeviceCtx) (p : Property) (m q : ℚ)
    (hmo : p.description.lookup "multipleOf" = some (.num m))
    (hm : m ≠ 0)
    (hro : p.checkReadOnly = .ok ())
    (hmin : p.checkMinimum (.num q) = .ok ())
    (hmax : p.checkMaximum (.num q) = .ok ())
    (hen : p.checkEnum (.num q) = .ok ()) :
    (Property.set_value ctx p (.num q)).1 = .ok () ↔ ∃ k : ℤ, q = (k : ℚ) * m := by
  have hiff := den_div_eq_one_iff q m hm
  have hmult : p.checkMultipleOf (.num q) =
      if (q / m).den = 1 then .ok ()
      else .error (.propertyError (.notMultipleOf (.num m))) := by
    unfold Property.checkMultipleOf
    rw [hmo]
    dsimp only
    rw [pyDiv_num]
    simp only [hm, if_false]
    have hcond := sub_pyRound_ne_zero_iff (q / m)
    by_cases h2 : (q / m).den = 1
    · rw [if_neg (by rw [hcond]; exact not_not.mpr h2), if_pos h2]
    · rw [if_pos (hcond.mpr h2), if_neg h2]
  have hcv : p.checkValue (.num q) =
      if (q / m).den = 1 then .ok ()
      else .error (.propertyError (.notMultipleOf (.num m))) := by
    unfold Property.checkValue
    rw [hro]
    simp only [except_bind_ok]
    rw [hmin]
    simp only [except_bind_ok]
    rw [hmax]
    simp only [except_bind_ok]
    rw [hmult]
    by_cases h2 : (q / m).den = 1
    · rw [if_pos h2]
      simp only [except_bind_ok]
      rw [hen]
    · rw [if_neg h2]
      rfl
  unfold Property.set_value
  rw [hcv]
  by_cases h2 : (q / m).den = 1
  · rw [if_pos h2]
    exact iff_of_true rfl (hiff.mp h2)
  · rw [if_neg h2]
    exact iff_of_false (by simp) fun hex => h2 (hiff.mpr hex)

/-- Witness for claim C3: with multipleOf 0.5 the acceptance condition is
integer-multiple-ness; candidate 1.5 is accepted and candidate 1.3 is
rejected. -/
theorem c3_multiple_of_divisibility_witness :
    ((Property.set_value ⟨"pl", "a1", "d1"⟩
        (Property.init "pos" [("multipleOf", JVal.num (1/2))]) (.num (3/2))).1 =
          .ok () ↔ ∃ k : ℤ, (3/2 : ℚ) = (k : ℚ) * (1/2)) ∧
    (Property.set_value ⟨"pl", "a1", "d1"⟩
        (Property.init "pos" [("multipleOf", JVal.num (1/2))]) (.num (3/2))).1 =
      .ok () ∧
    ¬(Property.set_value ⟨"pl", "a1", "d1"⟩
        (Property.init "pos" [("multipleOf", JVal.num (1/2))]) (.num (13/10))).1 =
      .ok () := by
  refine ⟨c3_multiple_of_divisibility ⟨"pl", "a1", "d1"⟩
      (Property.init "pos" [("multipleOf", JVal.num (1/2))]) (1/2) (3/2)
      rfl (by norm_num) rfl rfl rfl rfl,
    (c3_multiple_of_divisibility ⟨"pl", "a1", "d1"⟩
      (Property.init "pos" [("multipleOf", JVal.num (1/2))]) (1/2) (3/2)
      rfl (by norm_num) rfl rfl rfl rfl).mpr ⟨3, by norm_num⟩, ?_⟩
  intro h
  obtain ⟨k, hk⟩ :=
    (c3_multiple_of_divisibility ⟨"pl", "a1", "d1"⟩
      (Property.init "pos" [("multipleOf", JVal.num (1/2))]) (1/2) (13/10)
      rfl (by norm_num) rfl rfl rfl rfl).mp h
  have h5 : (13 : ℚ) = 5 * (k : ℚ) := by linarith
  have h5i : (13 : ℤ) = 5 * k := by exact_mod_cast h5
  omega

/-- Fields other than the value survive set_cached_value. -/
theorem set_cached_value_fields (p : Property) (v : JVal) :
    (p.set_cached_value v).description = p.description ∧
    (p.set_cached_value v).name = p.name ∧
    (p.set_cached_value v).visible = p.visible ∧
    (p.set_cached_value v).fire_and_forget = p.fire_and_forget := by
  unfold Property.set_cached_value
  cases p.description.lookup "type" with
  | none => simp
  | some t => by_cases h : pyEq t (.str "boolean") <;> simp [h]

/-- Coercion in set_cached_value is idempotent. -/
theorem set_cached_value_idem (p : Property) (v : JVal) :
    (p.set_cached_value v).set_cached_value v = p.set_cached_value v := by
  unfold Property.set_cached_value
  cases h : p.description.lookup "type" with
  | none => simp [h]
  | some t => by_cases ht : pyEq t (.str "boolean") <;> simp [h, ht]

/-- The constraint checks read only the description. -/
theorem checkValue_of_description_eq (p p2 : Property) (v : JVal)
    (h : p2.description = p.description) : p2.checkValue v = p.checkValue v := by
  unfold Property.checkValue Property.checkReadOnly Property.checkMinimum
    Property.checkMaximum Property.checkMultipleOf Property.checkEnum
  rw [h]

/-- Computation of set_value on a successful check. -/
theorem set_value_of_check_ok (ctx : DeviceCtx) (p : Property) (v : JVal)
    (hcv : p.checkValue v = .ok ()) :
    Property.set_value ctx p v =
      (.ok (), p.set_cached_value v,
       if pyEq p.value (p.set_cached_value v).value then []
       else [send_property_changed_notification ctx (p.set_cached_value v)]) := by
  unfold Property.set_value
  rw [hcv]
  unfold Property.set_cached_value_and_notify
  cases h : pyEq p.value (p.set_cached_value v).value <;> simp [h]

/-- Claim C7: two consecutive set_value calls with the same valid value
notify on the first call exactly when the prior cached value differs from
the coerced new value, and the second call succeeds, leaves the state
fixed and emits no notification. -/
theorem c7_idempotent_notification (ctx : DeviceCtx) (p : Property) (v : JVal)
    (hok : (Property.set_value ctx p v).1 = .ok ()) :
    ((Property.set_value ctx p v).2.2 =
       if pyEq p.value ((Property.set_value ctx p v).2.1).value then []
       else [send_property_changed_notification ctx (Property.set_value ctx p v).2.1]) ∧
    (Property.set_value ctx ((Property.set_value ctx p v).2.1) v).1 = .ok () ∧
    (Property.set_value ctx ((Property.set_value ctx p v).2.1) v).2.1 =
      (Property.set_value ctx p v).2.1 ∧
    (Property.set_value ctx ((Property.set_value ctx p v).2.1) v).2.2 = [] := by
  have hcv : p.checkValue v = .ok () := by
    cases h : p.checkValue v with
    | error e =>
        unfold Property.set_value at hok
        rw [h] at hok
        simp at hok
    | ok u => cases u; rfl
  have hsv := set_value_of_check_ok ctx p v hcv
  have hdesc := (set_cached_value_fields p v).1
  have hcv2 : (p.set_cached_value v).checkValue v = .ok () := by
    rw [checkValue_of_description_eq p (p.set_cached_value v) v hdesc]
    exact hcv
  have hsv2 := set_value_of_check_ok ctx (p.set_cached_value v) v hcv2
  have hval2 : ((p.set_cached_value v).set_cached_value v).value =
      (p.set_cached_value v).value := by
    rw [set_cached_value_idem]
  constructor
  · rw [hsv]
  · rw [hsv]
    simp only []
    rw [hsv2, set_cached_value_idem]
    refine ⟨rfl, rfl, ?_⟩
    rw [if_pos (pyEq_refl _)]

/-- Witness for claim C7: a fresh property (cached value None) set twice
to 5 notifies on the first call and not on the second. -/
theorem c7_idempotent_notification_witness :
    ((Property.set_value ⟨"pl", "a1", "d1"⟩ (Property.init "level" []) (.num 5)).2.2 =
       if pyEq (Property.init "level" []).value
            ((Property.set_value ⟨"pl", "a1", "d1"⟩ (Property.init "level" []) (.num 5)).2.1).value
       then []
       else [send_property_changed_notification ⟨"pl", "a1", "d1"⟩
          (Property.set_value ⟨"pl", "a1", "d1"⟩ (Property.init "level" []) (.num 5)).2.1]) ∧
    (Property.set_value ⟨"pl", "a1", "d1"⟩
        ((Property.set_value ⟨"pl", "a1", "d1"⟩ (Property.init "level" []) (.num 5)).2.1)
        (.num 5)).1 = .ok () ∧
    (Property.set_value ⟨"pl", "a1", "d1"⟩
        ((Property.set_value ⟨"pl", "a1", "d1"⟩ (Property.init "level" []) (.num 5)).2.1)
        (.num 5)).2.1 =
      (Property.set_value ⟨"pl", "a1", "d1"⟩ (Property.init "level" []) (.num 5)).2.1 ∧
    (Property.set_value ⟨"pl", "a1", "d1"⟩
        ((Property.set_value ⟨"pl", "a1", "d1"⟩ (Property.init "level" []) (.num 5)).2.1)
        (.num 5)).2.2 = [] :=
  c7_idempotent_notification ⟨"pl", "a1", "d1"⟩ (Property.init "level" []) (.num 5) rfl

/-- Claim C9: an Action is constructed with status created and no
completion time; start makes it pending and emits a status notification;
finish makes it completed, stamps a completion time not earlier than the
request time (for a monotone clock), and emits a status notification. -/
theorem c9_action_lifecycle (ctx : DeviceCtx) (id_ name_ input_ : JVal)
    (t0 t1 : ℕ) (h : t0 ≤ t1) :
    (Action.init id_ name_ input_ t0).status = "created" ∧
    (Action.init id_ name_ input_ t0).time_completed = none ∧
    (Action.start ctx (Action.init id_ name_ input_ t0)).1.status = "pending" ∧
    (Action.start ctx (Action.init id_ name_ input_ t0)).2 =
      [send_action_status_notification ctx
        (Action.start ctx (Action.init id_ name_ input_ t0)).1] ∧
    (Action.finish ctx (Action.start ctx (Action.init id_ name_ input_ t0)).1 t1).1.status =
      "completed" ∧
    (Action.finish ctx (Action.start ctx (Action.init id_ name_ input_ t0)).1
        t1).1.time_completed = some t1 ∧
    (Action.finish ctx (Action.start ctx (Action.init id_ name_ input_ t0)).1 t1).2 =
      [send_action_status_notification ctx
        (Action.finish ctx (Action.start ctx (Action.init id_ name_ input_ t0)).1 t1).1] ∧
    (∀ tc,
      (Action.finish ctx
          (Action.start ctx (Action.init id_ name_ input_ t0)).1 t1).1.time_completed =
        some tc →
      (Action.finish ctx
          (Action.start ctx (Action.init id_ name_ input_ t0)).1 t1).1.time_requested ≤
        tc) := by
  refine ⟨rfl, rfl, rfl, rfl, rfl, rfl, rfl, ?_⟩
  intro tc htc
  simp only [Action.finish, Action.start, Action.init, Option.some.injEq] at htc
  simp only [Action.finish, Action.start, Action.init]
  omega

/-- Witness for claim C9 at a concrete clock. -/
theorem c9_action_lifecycle_witness :
    (Action.init (.str "a7") (.str "fade") .null 3).status = "created" ∧
    (Action.init (.str "a7") (.str "fade") .null 3).time_completed = none ∧
    (Action.start ⟨"pl", "a1", "d1"⟩ (Action.init (.str "a7") (.str "fade") .null 3)).1.status =
      "pending" ∧
    (Action.start ⟨"pl", "a1", "d1"⟩ (Action.init (.str "a7") (.str "fade") .null 3)).2 =
      [send_action_status_notification ⟨"pl", "a1", "d1"⟩
        (Action.start ⟨"pl", "a1", "d1"⟩ (Action.init (.str "a7") (.str "fade") .null 3)).1] ∧
    (Action.finish ⟨"pl", "a1", "d1"⟩
        (Action.start ⟨"pl", "a1", "d1"⟩ (Action.init (.str "a7") (.str "fade") .null 3)).1
        5).1.status = "completed" ∧
    (Action.finish ⟨"pl", "a1", "d1"⟩
        (Action.start ⟨"pl", "a1", "d1"⟩ (Action.init (.str "a7") (.str "fade") .null 3)).1
        5).1.time_completed = some 5 ∧
    (Action.finish ⟨"pl", "a1", "d1"⟩
        (Action.start ⟨"pl", "a1", "d1"⟩ (Action.init (.str "a7") (.str "fade") .null 3)).1
        5).2 =
      [send_action_status_notification ⟨"pl", "a1", "d1"⟩
        (Action.finish ⟨"pl", "a1", "d1"⟩
          (Action.start ⟨"pl", "a1", "d1"⟩ (Action.init (.str "a7") (.str "fade") .null 3)).1
          5).1] ∧
    (∀ tc,
      (Action.finish ⟨"pl", "a1", "d1"⟩
          (Action.start ⟨"pl", "a1", "d1"⟩ (Action.init (.str "a7") (.str "fade") .null 3)).1
          5).1.time_completed = some tc →
      (Action.finish ⟨"pl", "a1", "d1"⟩
          (Action.start ⟨"pl", "a1", "d1"⟩ (Action.init (.str "a7") (.str "fade") .null 3)).1
          5).1.time_requested ≤ tc) :=
  c9_action_lifecycle ⟨"pl", "a1", "d1"⟩ (.str "a7") (.str "fade") .null 3 5 (by decide)

/-- Folding the canonical-field copy over keys not containing k leaves the
lookup of k unchanged. -/
theorem fieldsFold_lookup_not_mem (desc : List (String × JVal)) (k : String) :
    ∀ (fs : List String) (acc : List (String × JVal)), k ∉ fs →
      (fs.foldl (fun d f =>
          match desc.lookup f with
          | some v => dinsert f v d
          | none => d) acc).lookup k = acc.lookup k := by
  intro fs
  induction fs with
  | nil => intro acc _; rfl
  | cons f rest ih =>
      intro acc hk
      have hkf : k ≠ f := fun he => hk (he ▸ List.mem_cons_self f rest)
      have hkrest : k ∉ rest := fun hm => hk (List.mem_cons_of_mem f hm)
      rw [List.foldl_cons]
      cases h : desc.lookup f with
      | none =>
          dsimp only
          exact ih acc hkrest
      | some v =>
          dsimp only
          rw [ih (dinsert f v acc) hkrest, dinsert_lookup_ne k f hkf]

/-- Folding the canonical-field copy over keys containing k, when the
input description holds k, stores the input's value of k. -/
theorem fieldsFold_lookup_mem_some (desc : List (String × JVal)) (k : String)
    (u : JVal) (hu : desc.lookup k = some u) :
    ∀ (fs : List String) (acc : List (String × JVal)), k ∈ fs →
      (fs.foldl (fun d f =>
          match desc.lookup f with
          | some v => dinsert f v d
          | none => d) acc).lookup k = some u := by
  intro fs
  induction fs with
  | nil => intro acc hk; exact absurd hk (List.not_mem_nil k)
  | cons f rest ih =>
      intro acc hk
      rw [List.foldl_cons]
      by_cases hr : k ∈ rest
      · exact ih _ hr
      · have hkf : k = f := by
          rcases List.mem_cons.mp hk with h | h
          · exact h
          · exact absurd h hr
        subst hkf
        rw [hu]
        dsimp only
        rw [fieldsFold_lookup_not_mem desc k rest _ hr, dinsert_lookup_self]

/-- Folding the canonical-field copy over keys containing k, when the
input description does not hold k, leaves the lookup of k unchanged. -/
theorem fieldsFold_lookup_mem_none (desc : List (String × JVal)) (k : String)
    (hu : desc.lookup k = none) :
    ∀ (fs : List String) (acc : List (String × JVal)),
      (fs.foldl (fun d f =>
          match desc.lookup f with
          | some v => dinsert f v d
          | none => d) acc).lookup k = acc.lookup k := by
  intro fs
  induction fs with
  | nil => intro acc; rfl
  | cons f rest ih =>
      intro acc
      rw [List.foldl_cons]
      by_cases hkf : k = f
      · subst hkf
        rw [hu]
        dsimp only
        exact ih acc
      · cases h : desc.lookup f with
        | none =>
            dsimp only
            exact ih acc
        | some v =>
            dsimp only
            rw [ih (dinsert f v acc), dinsert_lookup_ne k f hkf]

/-- Claim C10: when a property description holds both a legacy key and its
canonical key (min and minimum, max and maximum, label and title), the
constructed description holds the canonical key's value under the
canonical name; when only the legacy key is present, its value appears
under the canonical name. -/
theorem c10_legacy_key_normalization (desc : List (String × JVal)) (v w : JVal) :
    ((desc.lookup "min" = some v → desc.lookup "minimum" = some w →
        (Property.initDescription desc).lookup "minimum" = some w) ∧
     (desc.lookup "min" = some v → desc.lookup "minimum" = none →
        (Property.initDescription desc).lookup "minimum" = some v)) ∧
    ((desc.lookup "max" = some v → desc.lookup "maximum" = some w →
        (Property.initDescription desc).lookup "maximum" = some w) ∧
     (desc.lookup "max" = some v → desc.lookup "maximum" = none →
        (Property.initDescription desc).lookup "maximum" = some v)) ∧
    ((desc.lookup "label" = some v → desc.lookup "title" = some w →
        (Property.initDescription desc).lookup "title" = some w) ∧
     (desc.lookup "label" = some v → desc.lookup "title" = none →
        (Property.initDescription desc).lookup "title" = some v)) := by
  refine ⟨⟨?_, ?_⟩, ⟨?_, ?_⟩, ⟨?_, ?_⟩⟩ <;> intro hleg hcan
  · exact fieldsFold_lookup_mem_some desc "minimum" w hcan propertyFields _ (by decide)
  · unfold Property.initDescription
    rw [fieldsFold_lookup_mem_none desc "minimum" hcan propertyFields]
    rw [hleg]
    cases hmax : desc.lookup "max" <;> cases hlabel : desc.lookup "label" <;>
      simp only [dinsert_lookup_ne "minimum" "maximum" (by decide),
        dinsert_lookup_ne "minimum" "title" (by decide), dinsert_lookup_self]
  · exact fieldsFold_lookup_mem_some desc "maximum" w hcan propertyFields _ (by decide)
  · unfold Property.initDescription
    rw [fieldsFold_lookup_mem_none desc "maximum" hcan propertyFields]
    rw [hleg]
    cases hmin : desc.lookup "min" <;> cases hlabel : desc.lookup "label" <;>
      simp only [dinsert_lookup_ne "maximum" "title" (by decide), dinsert_lookup_self]
  · exact fieldsFold_lookup_mem_some desc "title" w hcan propertyFields _ (by decide)
  · unfold Property.initDescription
    rw [fieldsFold_lookup_mem_none desc "title" hcan propertyFields]
    rw [hleg]
    rw [dinsert_lookup_self]

/-- Witness for claim C10 on a description carrying min together with
minimum, max alone as legacy, and label together with title. -/
theorem c10_legacy_key_normalization_witness :
    (([("min", JVal.num 1), ("minimum", JVal.num 2), ("max", JVal.num 9),
       ("label", JVal.str "old"), ("title", JVal.str "new")].lookup "min" =
          some (JVal.num 1) →
      [("min", JVal.num 1), ("minimum", JVal.num 2), ("max", JVal.num 9),
       ("label", JVal.str "old"), ("title", JVal.str "new")].lookup "minimum" =
          some (JVal.num 2) →
      (Property.initDescription
        [("min", JVal.num 1), ("minimum", JVal.num 2), ("max", JVal.num 9),
         ("label", JVal.str "old"), ("title", JVal.str "new")]).lookup "minimum" =
        some (JVal.num 2)) ∧
     ([("min", JVal.num 1), ("minimum", JVal.num 2), ("max", JVal.num 9),
       ("label", JVal.str "old"), ("title", JVal.str "new")].lookup "min" =
          some (JVal.num 1) →
      [("min", JVal.num 1), ("minimum", JVal.num 2), ("max", JVal.num 9),
       ("label", JVal.str "old"), ("title", JVal.str "new")].lookup "minimum" = none →
      (Property.initDescription
        [("min", JVal.num 1), ("minimum", JVal.num 2), ("max", JVal.num 9),
         ("label", JVal.str "old"), ("title", JVal.str "new")]).lookup "minimum" =
        some (JVal.num 1))) ∧
    (([("min", JVal.num 1), ("minimum", JVal.num 2), ("max", JVal.num 9),
       ("label", JVal.str "old"), ("title", JVal.str "new")].lookup "max" =
          some (JVal.num 9) →
      [("min", JVal.num 1), ("minimum", JVal.num 2), ("max", JVal.num 9),
       ("label", JVal.str "old"), ("title", JVal.str "new")].lookup "maximum" =
          some (JVal.num 9) →
      (Property.initDescription
        [("min", JVal.num 1), ("minimum", JVal.num 2), ("max", JVal.num 9),
         ("label", JVal.str "old"), ("title", JVal.str "new")]).lookup "maximum" =
        some (JVal.num 9)) ∧
     ([("min", JVal.num 1), ("minimum", JVal.num 2), ("max", JVal.num 9),
       ("label", JVal.str "old"), ("title", JVal.str "new")].lookup "max" =
          some (JVal.num 9) →
      [("min", JVal.num 1), ("minimum", JVal.num 2), ("max", JVal.num 9),
       ("label", JVal.str "old"), ("title", JVal.str "new")].lookup "maximum" = none →
      (Property.initDescription
        [("min", JVal.num 1), ("minimum", JVal.num 2), ("max", JVal.num 9),
         ("label", JVal.str "old"), ("title", JVal.str "new")]).lookup "maximum" =
        some (JVal.num 9))) ∧
    (([("min", JVal.num 1), ("minimum", JVal.num 2), ("max", JVal.num 9),
       ("label", JVal.str "old"), ("title", JVal.str "new")].lookup "label" =
          some (JVal.str "old") →
      [("min", JVal.num 1), ("minimum", JVal.num 2), ("max", JVal.num 9),
       ("label", JVal.str "old"), ("title", JVal.str "new")].lookup "title" =
          some (JVal.str "new") →
      (Property.initDescription
        [("min", JVal.num 1), ("minimum", JVal.num 2), ("max", JVal.num 9),
         ("label", JVal.str "old"), ("title", JVal.str "new")]).lookup "title" =
        some (JVal.str "new")) ∧
     ([("min", JVal.num 1), ("minimum", JVal.num 2), ("max", JVal.num 9),
       ("label", JVal.str "old"), ("title", JVal.str "new")].lookup "label" =
          some (JVal.str "old") →
      [("min", JVal.num 1), ("minimum", JVal.num 2), ("max", JVal.num 9),
       ("label", JVal.str "old"), ("title", JVal.str "new")].lookup "title" = none →
      (Property.initDescription
        [("min", JVal.num 1), ("minimum", JVal.num 2), ("max", JVal.num 9),
         ("label", JVal.str "old"), ("title", JVal.str "new")]).lookup "title" =
        some (JVal.str "old"))) := by
  have h := c10_legacy_key_normalization
    [("min", JVal.num 1), ("minimum", JVal.num 2), ("max", JVal.num 9),
     ("label", JVal.str "old"), ("title", JVal.str "new")]
  exact ⟨⟨(h (JVal.num 1) (JVal.num 2)).1.1, (h (JVal.num 1) (JVal.num 1)).1.2⟩,
    ⟨(h (JVal.num 9) (JVal.num 9)).2.1.1, (h (JVal.num 9) (JVal.num 9)).2.1.2⟩,
    ⟨(h (JVal.str "old") (JVal.str "new")).2.2.1,
     (h (JVal.str "old") (JVal.str "new")).2.2.2⟩⟩

/-- Folding dictionary update over entries whose keys avoid k preserves
the lookup of k. -/
theorem foldl_dinsert_lookup_none (k : String) :
    ∀ d : List (String × JVal), d.lookup k = none →
      ∀ acc : List (String × JVal),
        (d.foldl (fun acc2 kv => dinsert kv.1 kv.2 acc2) acc).lookup k =
          acc.lookup k := by
  intro d
  induction d with
  | nil => intro _ acc; rfl
  | cons kv rest ih =>
      intro h acc
      obtain ⟨k2, v2⟩ := kv
      have hk2 : (k == k2) = false := by
        cases hb : k == k2
        · rfl
        · exfalso
          simp [List.lookup, hb] at h
      have hrest : rest.lookup k = none := by
        simpa [List.lookup, hk2] using h
      have hne : k ≠ k2 := by
        intro he
        rw [he] at hk2
        simp at hk2
      rw [List.foldl_cons]
      dsimp only
      rw [ih hrest (dinsert k2 v2 acc), dinsert_lookup_ne k k2 hne]

/-- Claim C1: for an inbound set-property command whose device and
property resolve, if the constraint-checked set_value raises a
PropertyError then the worker returns normally (no exception escapes) and
emits exactly one property-changed notification whose property payload is
the unchanged property, carrying the prior cached value; on success the
notification is additionally proactively emitted when the property is
fire-and-forget. -/
theorem c1_set_prop_worker_error_notification (pluginId : String) (a : Adapter)
    (device_id : JVal) (data : JVal) (dev : Device) (pname : JVal)
    (prop : Property) (value : JVal)
    (hdev : a.get_device device_id = .ok (some dev))
    (hpn : pyGetItemKey data "propertyName" = .ok pname)
    (hprop : dev.find_property pname = .ok (some prop))
    (hval : pyGetItemKey data "propertyValue" = .ok value)
    (hnoval : prop.description.lookup "value" = none) :
    (∀ r, prop.checkValue value = .error (.propertyError r) →
       set_prop_fn pluginId a device_id data =
         .ok (a.writeDevice device_id (dev.writeProp pname prop),
              [send_property_changed_notification ⟨pluginId, a.id, dev.id⟩ prop]) ∧
       (send_property_changed_notification ⟨pluginId, a.id, dev.id⟩ prop).data.lookup
           "property" = some (.obj prop.as_dict) ∧
       prop.as_dict.lookup "value" = some prop.value) ∧
    (prop.checkValue value = .ok () → prop.fire_and_forget = true →
       set_prop_fn pluginId a device_id data =
         .ok (a.writeDevice device_id
                (dev.writeProp pname (prop.set_cached_value value)),
              (if pyEq prop.value (prop.set_cached_value value).value then []
               else [send_property_changed_notification ⟨pluginId, a.id, dev.id⟩
                       (prop.set_cached_value value)]) ++
              [send_property_changed_notification ⟨pluginId, a.id, dev.id⟩
                 (prop.set_cached_value value)])) := by
  constructor
  · intro r hr
    have hsv : Property.set_value ⟨pluginId, a.id, dev.id⟩ prop value =
        (.error (.propertyError r), prop, []) := by
      unfold Property.set_value
      rw [hr]
    refine ⟨?_, rfl, ?_⟩
    · unfold set_prop_fn
      rw [hdev]
      simp only [except_bind_ok]
      try dsimp only
      rw [hpn]
      simp only [except_bind_ok]
      rw [hprop]
      simp only [except_bind_ok]
      try dsimp only
      rw [hval]
      simp only [except_bind_ok]
      rw [hsv]
      rfl
    · unfold Property.as_dict
      rw [foldl_dinsert_lookup_none "value" prop.description hnoval]
      rfl
  · intro hok hfaf
    have hsv := set_value_of_check_ok ⟨pluginId, a.id, dev.id⟩ prop value hok
    have hfaf2 : (prop.set_cached_value value).fire_and_forget = true := by
      rw [(set_cached_value_fields prop value).2.2.2]
      exact hfaf
    unfold set_prop_fn
    rw [hdev]
    simp only [except_bind_ok]
    try dsimp only
    rw [hpn]
    simp only [except_bind_ok]
    rw [hprop]
    simp only [except_bind_ok]
    try dsimp only
    rw [hval]
    simp only [except_bind_ok]
    rw [hsv]
    try dsimp only
    rw [hfaf2]
    rfl

/-- Witness for claim C1: a brightness property with maximum 100 receiving
candidate 150 makes the worker return normally with one notification
carrying the unchanged prior value. -/
theorem c1_set_prop_worker_error_notification_witness :
    set_prop_fn "pl"
        { id := "a1", name := "ad", package_name := "pkg",
          devices := [("d1",
            { id := "d1", name := "lamp", type := "thing", context := "ctx",
              atType := [], description := "",
              properties := [("brightness",
                Property.init "brightness" [("maximum", JVal.num 100)])],
              actions := [], events := [], base_href := .null,
              pin_required := false, pin_pattern := .null,
              credentials_required := false })], ready := true }
        (.str "d1")
        (.obj [("propertyName", .str "brightness"), ("propertyValue", .num 150)]) =
      .ok (Adapter.writeDevice
             { id := "a1", name := "ad", package_name := "pkg",
               devices := [("d1",
                 { id := "d1", name := "lamp", type := "thing", context := "ctx",
                   atType := [], description := "",
                   properties := [("brightness",
                     Property.init "brightness" [("maximum", JVal.num 100)])],
                   actions := [], events := [], base_href := .null,
                   pin_required := false, pin_pattern := .null,
                   credentials_required := false })], ready := true }
             (.str "d1")
             (Device.writeProp
               { id := "d1", name := "lamp", type := "thing", context := "ctx",
                 atType := [], description := "",
                 properties := [("brightness",
                   Property.init "brightness" [("maximum", JVal.num 100)])],
                 actions := [], events := [], base_href := .null,
                 pin_required := false, pin_pattern := .null,
                 credentials_required := false }
               (.str "brightness")
               (Property.init "brightness" [("maximum", JVal.num 100)])),
           [send_property_changed_notification ⟨"pl", "a1", "d1"⟩
              (Property.init "brightness" [("maximum", JVal.num 100)])]) ∧
    (send_property_changed_notification ⟨"pl", "a1", "d1"⟩
        (Property.init "brightness" [("maximum", JVal.num 100)])).data.lookup
        "property" =
      some (.obj (Property.init "brightness" [("maximum", JVal.num 100)]).as_dict) ∧
    (Property.init "brightness" [("maximum", JVal.num 100)]).as_dict.lookup "value" =
      some (Property.init "brightness" [("maximum", JVal.num 100)]).value :=
  (c1_set_prop_worker_error_notification "pl"
    { id := "a1", name := "ad", package_name := "pkg",
      devices := [("d1",
        { id := "d1", name := "lamp", type := "thing", context := "ctx",
          atType := [], description := "",
          properties := [("brightness",
            Property.init "brightness" [("maximum", JVal.num 100)])],
          actions := [], events := [], base_href := .null,
          pin_required := false, pin_pattern := .null,
          credentials_required := false })], ready := true }
    (.str "d1")
    (.obj [("propertyName", .str "brightness"), ("propertyValue", .num 150)])
    { id := "d1", name := "lamp", type := "thing", context := "ctx",
      atType := [], description := "",
      properties := [("brightness",
        Property.init "brightness" [("maximum", JVal.num 100)])],
      actions := [], events := [], base_href := .null,
      pin_required := false, pin_pattern := .null,
      credentials_required := false }
    (.str "brightness")
    (Property.init "brightness" [("maximum", JVal.num 100)])
    (.num 150) rfl rfl rfl rfl rfl).1 (.gtMaximum (.num 100)) rfl

/-- Counterexample to claim C5: with the device gone (empty registry), the
request-action worker does not no-op silently; it sends a success
response. -/
theorem c5_counterexample_request_action_responds :
    Adapter.get_device
        { id := "a1", name := "ad", package_name := "pkg", devices := [],
          ready := true } (.str "ghost") = .ok none ∧
    request_action_fn (fun _ _ => true) 0 "pl" (.str "a1")
        { id := "a1", name := "ad", package_name := "pkg", devices := [],
          ready := true }
        (.str "ghost")
        (.obj [("actionId", .str "x"), ("actionName", .str "y")]) =
      .ok ({ id := "a1", name := "ad", package_name := "pkg", devices := [],
             ready := true },
           [proxySend "pl" .DEVICE_REQUEST_ACTION_RESPONSE
              [("adapterId", .str "a1"), ("deviceId", .str "ghost"),
               ("actionName", .str "y"), ("actionId", .str "x"),
               ("success", .bool true)]]) ∧
    [proxySend "pl" .DEVICE_REQUEST_ACTION_RESPONSE
       [("adapterId", .str "a1"), ("deviceId", .str "ghost"),
        ("actionName", .str "y"), ("actionId", .str "x"),
        ("success", .bool true)]] ≠ ([] : List OutMsg) := by
  refine ⟨rfl, rfl, ?_⟩
  simp

/-- Claim C5 amended: every device-scoped worker re-resolves the device;
when it is gone, the remove-device, cancel-remove-device and set-property
workers no-op silently (no response, no exception), the request-action and
remove-action workers skip the device operation but still send a success
response, and the set-pin and set-credentials workers send a failure
response (the adapter raises the typed error, which the worker catches). -/
theorem c5_amended_device_gone_behavior (pluginId : String)
    (schemaOk : JVal → JVal → Bool) (now : ℕ) (adapter_id : JVal) (a : Adapter)
    (device_id : JVal) (data : JVal)
    (hgone : a.get_device device_id = .ok none)
    (action_id action_name message_id : JVal)
    (haid : pyGetItemKey data "actionId" = .ok action_id)
    (han : pyGetItemKey data "actionName" = .ok action_name)
    (hmid : pyGetItemKey data "messageId" = .ok message_id)
    (pin username password : JVal)
    (hpin : pyGetItemKey data "pin" = .ok pin)
    (huser : pyGetItemKey data "username" = .ok username)
    (hpass : pyGetItemKey data "password" = .ok password) :
    Adapter.remove_thing pluginId a device_id = .ok (a, []) ∧
    Adapter.cancel_remove_thing a device_id = .ok (a, []) ∧
    set_prop_fn pluginId a device_id data = .ok (a, []) ∧
    request_action_fn schemaOk now pluginId adapter_id a device_id data =
      .ok (a, [proxySend pluginId .DEVICE_REQUEST_ACTION_RESPONSE
        [("adapterId", adapter_id), ("deviceId", device_id),
         ("actionName", action_name), ("actionId", action_id),
         ("success", .bool true)]]) ∧
    remove_action_fn pluginId adapter_id a device_id data =
      .ok (a, [proxySend pluginId .DEVICE_REMOVE_ACTION_RESPONSE
        [("adapterId", adapter_id), ("actionName", action_name),
         ("actionId", action_id), ("messageId", message_id),
         ("deviceId", device_id), ("success", .bool true)]]) ∧
    set_pin_fn pluginId a device_id data =
      .ok (a, [proxySend pluginId .DEVICE_SET_PIN_RESPONSE
        [("deviceId", device_id), ("messageId", message_id),
         ("adapterId", .str a.id), ("success", .bool false)]]) ∧
    set_credentials_fn pluginId a device_id data =
      .ok (a, [proxySend pluginId .DEVICE_SET_CREDENTIALS_RESPONSE
        [("deviceId", device_id), ("messageId", message_id),
         ("adapterId", .str a.id), ("success", .bool false)]]) := by
  refine ⟨?_, ?_, ?_, ?_, ?_, ?_, ?_⟩
  · unfold Adapter.remove_thing
    rw [hgone]
    rfl
  · unfold Adapter.cancel_remove_thing
    rw [hgone]
    rfl
  · unfold set_prop_fn
    rw [hgone]
    rfl
  · unfold request_action_fn
    rw [haid]
    simp only [except_bind_ok]
    rw [han]
    simp only [except_bind_ok]
    rw [hgone]
    rfl
  · unfold remove_action_fn
    rw [haid]
    simp only [except_bind_ok]
    rw [han]
    simp only [except_bind_ok]
    rw [hmid]
    simp only [except_bind_ok]
    rw [hgone]
    rfl
  · unfold set_pin_fn
    rw [hmid]
    simp only [except_bind_ok]
    rw [hpin]
    simp only [except_bind_ok]
    unfold Adapter.set_pin
    rw [hgone]
    rfl
  · unfold set_credentials_fn
    rw [hmid]
    simp only [except_bind_ok]
    rw [huser]
    simp only [except_bind_ok]
    rw [hpass]
    simp only [except_bind_ok]
    unfold Adapter.set_credentials
    rw [hgone]
    rfl

/-- Witness for the amended claim C5 on a concrete adapter with an empty
device registry. -/
theorem c5_amended_device_gone_behavior_witness :
    Adapter.remove_thing "pl"
        { id := "a1", name := "ad", package_name := "pkg", devices := [],
          ready := true } (.str "ghost") =
      .ok ({ id := "a1", name := "ad", package_name := "pkg", devices := [],
             ready := true }, []) ∧
    Adapter.cancel_remove_thing
        { id := "a1", name := "ad", package_name := "pkg", devices := [],
          ready := true } (.str "ghost") =
      .ok ({ id := "a1", name := "ad", package_name := "pkg", devices := [],
             ready := true }, []) ∧
    set_prop_fn "pl"
        { id := "a1", name := "ad", package_name := "pkg", devices := [],
          ready := true } (.str "ghost")
        (.obj [("actionId", .str "x"), ("actionName", .str "y"),
               ("messageId", .str "m1"), ("pin", .str "1234"),
               ("username", .str "u"), ("password", .str "w")]) =
      .ok ({ id := "a1", name := "ad", package_name := "pkg", devices := [],
             ready := true }, []) ∧
    request_action_fn (fun _ _ => true) 0 "pl" (.str "a1")
        { id := "a1", name := "ad", package_name := "pkg", devices := [],
          ready := true } (.str "ghost")
        (.obj [("actionId", .str "x"), ("actionName", .str "y"),
               ("messageId", .str "m1"), ("pin", .str "1234"),
               ("username", .str "u"), ("password", .str "w")]) =
      .ok ({ id := "a1", name := "ad", package_name := "pkg", devices := [],
             ready := true },
           [proxySend "pl" .DEVICE_REQUEST_ACTION_RESPONSE
              [("adapterId", .str "a1"), ("deviceId", .str "ghost"),
               ("actionName", .str "y"), ("actionId", .str "x"),
               ("success", .bool true)]]) ∧
    remove_action_fn "pl" (.str "a1")
        { id := "a1", name := "ad", package_name := "pkg", devices := [],
          ready := true } (.str "ghost")
        (.obj [("actionId", .str "x"), ("actionName", .str "y"),
               ("messageId", .str "m1"), ("pin", .str "1234"),
               ("username", .str "u"), ("password", .str "w")]) =
      .ok ({ id := "a1", name := "ad", package_name := "pkg", devices := [],
             ready := true },
           [proxySend "pl" .DEVICE_REMOVE_ACTION_RESPONSE
              [("adapterId", .str "a1"), ("actionName", .str "y"),
               ("actionId", .str "x"), ("messageId", .str "m1"),
               ("deviceId", .str "ghost"), ("success", .bool true)]]) ∧
    set_pin_fn "pl"
        { id := "a1", name := "ad", package_name := "pkg", devices := [],
          ready := true } (.str "ghost")
        (.obj [("actionId", .str "x"), ("actionName", .str "y"),
               ("messageId", .str "m1"), ("pin", .str "1234"),
               ("username", .str "u"), ("password", .str "w")]) =
      .ok ({ id := "a1", name := "ad", package_name := "pkg", devices := [],
             ready := true },
           [proxySend "pl" .DEVICE_SET_PIN_RESPONSE
              [("deviceId", .str "ghost"), ("messageId", .str "m1"),
               ("adapterId", .str "a1"), ("success", .bool false)]]) ∧
    set_credentials_fn "pl"
        { id := "a1", name := "ad", package_name := "pkg", devices := [],
          ready := true } (.str "ghost")
        (.obj [("actionId", .str "x"), ("actionName", .str "y"),
               ("messageId", .str "m1"), ("pin", .str "1234"),
               ("username", .str "u"), ("password", .str "w")]) =
      .ok ({ id := "a1", name := "ad", package_name := "pkg", devices := [],
             ready := true },
           [proxySend "pl" .DEVICE_SET_CREDENTIALS_RESPONSE
              [("deviceId", .str "ghost"), ("messageId", .str "m1"),
               ("adapterId", .str "a1"), ("success", .bool false)]]) :=
  c5_amended_device_gone_behavior "pl" (fun _ _ => true) 0 (.str "a1")
    { id := "a1", name := "ad", package_name := "pkg", devices := [],
      ready := true }
    (.str "ghost")
    (.obj [("actionId", .str "x"), ("actionName", .str "y"),
           ("messageId", .str "m1"), ("pin", .str "1234"),
           ("username", .str "u"), ("password", .str "w")])
    rfl (.str "x") (.str "y") (.str "m1") rfl rfl rfl
    (.str "1234") (.str "u") (.str "w") rfl rfl rfl

/-- Counterexample to claim C4: with registration not yet complete, a
schema-valid message that is not the registration response is passed to
the owner message handler rather than being discarded. -/
theorem c4_counterexample_delivered_before_registration :
    ({ plugin_id := "pl", registered := false, gateway_version := .null,
       user_profile := .null, preferences := .null } : IpcState).registered =
      false ∧
    pyEq (MT.wire .PLUGIN_UNLOAD_REQUEST) (MT.wire .PLUGIN_REGISTER_RESPONSE) =
      false ∧
    IpcClient.on_message (fun _ => true)
        { plugin_id := "pl", registered := false, gateway_version := .null,
          user_profile := .null, preferences := .null }
        (some (.obj [("messageType", MT.wire .PLUGIN_UNLOAD_REQUEST)])) =
      .ok ({ plugin_id := "pl", registered := false, gateway_version := .null,
             user_profile := .null, preferences := .null },
           [.deliver (.obj [("messageType", MT.wire .PLUGIN_UNLOAD_REQUEST)])]) := by
  exact ⟨rfl, rfl, rfl⟩

/-- Claim C4 amended: a message that fails JSON decoding makes the except
handler itself raise (the warning print references the unbound decoded
value), a message failing schema validation is logged and dropped, and a
schema-valid message that is not the registration response is passed to
the owner message handler regardless of whether registration has
completed; it is never queued. -/
theorem c4_amended_on_message_routing (validate : JVal → Bool) (st : IpcState)
    (kvs : List (String × JVal)) (mt : JVal)
    (hmt : kvs.lookup "messageType" = some mt)
    (hne : pyEq mt (MT.wire .PLUGIN_REGISTER_RESPONSE) = false) :
    (validate (.obj kvs) = true →
       IpcClient.on_message validate st (some (.obj kvs)) =
         .ok (st, [.deliver (.obj kvs)])) ∧
    (validate (.obj kvs) = false →
       IpcClient.on_message validate st (some (.obj kvs)) =
         .ok (st, [.log "Invalid message received"])) ∧
    IpcClient.on_message validate st none = .error .nameError := by
  refine ⟨?_, ?_, rfl⟩
  · intro hv
    unfold IpcClient.on_message
    dsimp only
    rw [hv, if_pos rfl]
    have hget : pyGetItemKey (.obj kvs) "messageType" = .ok mt := by
      unfold pyGetItemKey
      dsimp only
      rw [hmt]
    rw [hget]
    simp only [except_bind_ok]
    rw [hne, if_neg Bool.false_ne_true]
    rfl
  · intro hv
    unfold IpcClient.on_message
    dsimp only
    rw [hv, if_neg Bool.false_ne_true]
    rfl

/-- Witness for the amended claim C4 with an unregistered session and an
always-accepting validator. -/
theorem c4_amended_on_message_routing_witness :
    ((fun (_ : JVal) => true) (.obj [("messageType", MT.wire .PLUGIN_UNLOAD_REQUEST)]) = true →
       IpcClient.on_message (fun _ => true)
           { plugin_id := "pl", registered := false, gateway_version := .null,
             user_profile := .null, preferences := .null }
           (some (.obj [("messageType", MT.wire .PLUGIN_UNLOAD_REQUEST)])) =
         .ok ({ plugin_id := "pl", registered := false, gateway_version := .null,
                user_profile := .null, preferences := .null },
              [.deliver (.obj [("messageType", MT.wire .PLUGIN_UNLOAD_REQUEST)])])) ∧
    ((fun (_ : JVal) => true) (.obj [("messageType", MT.wire .PLUGIN_UNLOAD_REQUEST)]) = false →
       IpcClient.on_message (fun _ => true)
           { plugin_id := "pl", registered := false, gateway_version := .null,
             user_profile := .null, preferences := .null }
           (some (.obj [("messageType", MT.wire .PLUGIN_UNLOAD_REQUEST)])) =
         .ok ({ plugin_id := "pl", registered := false, gateway_version := .null,
                user_profile := .null, preferences := .null },
              [.log "Invalid message received"])) ∧
    IpcClient.on_message (fun _ => true)
        { plugin_id := "pl", registered := false, gateway_version := .null,
          user_profile := .null, preferences := .null } none =
      .error .nameError :=
  c4_amended_on_message_routing (fun _ => true)
    { plugin_id := "pl", registered := false, gateway_version := .null,
      user_profile := .null, preferences := .null }
    [("messageType", MT.wire .PLUGIN_UNLOAD_REQUEST)]
    (MT.wire .PLUGIN_UNLOAD_REQUEST) rfl rfl

/-- Claim C6: a plugin-unload request makes the receive loop send the
unload acknowledgment, spawn the deferred close worker and stop; the
worker's trace sleeps the 0.5-second grace interval, clears the running
flag and only then closes the sockets, so in the combined program order
every transport-close event is strictly after the acknowledgment send. -/
theorem c6_unload_ack_before_close (st : ProxyState) (kvs : List (String × JVal))
    (hmt : kvs.lookup "messageType" = some (MT.wire .PLUGIN_UNLOAD_REQUEST)) :
    recvStep st (.msg (.obj kvs)) =
      .ok { state := st,
            outs := [proxySend st.plugin_id .PLUGIN_UNLOAD_RESPONSE []],
            logs := [], spawns := [.closeWorker], ctl := .stop } ∧
    (close_fn st).1.running = false ∧
    stepCloseTrace
        { state := st,
          outs := [proxySend st.plugin_id .PLUGIN_UNLOAD_RESPONSE []],
          logs := [], spawns := [.closeWorker], ctl := .stop } =
      [.send (proxySend st.plugin_id .PLUGIN_UNLOAD_RESPONSE []),
       .sleepSeconds (1/2), .clearRunning,
       .closeSocket "manager_socket", .closeSocket "plugin_socket"] ∧
    (∀ i n,
      ([TraceEv.send (proxySend st.plugin_id .PLUGIN_UNLOAD_RESPONSE []),
        TraceEv.sleepSeconds (1/2), TraceEv.clearRunning,
        TraceEv.closeSocket "manager_socket",
        TraceEv.closeSocket "plugin_socket"] : List TraceEv).get? i =
          some (.closeSocket n) →
      ∃ jj, jj < i ∧
        ([TraceEv.send (proxySend st.plugin_id .PLUGIN_UNLOAD_RESPONSE []),
          TraceEv.sleepSeconds (1/2), TraceEv.clearRunning,
          TraceEv.closeSocket "manager_socket",
          TraceEv.closeSocket "plugin_socket"] : List TraceEv).get? jj =
            some (.send (proxySend st.plugin_id .PLUGIN_UNLOAD_RESPONSE []))) := by
  have hcont : pyContains "messageType" (.obj kvs) = .ok true := by
    unfold pyContains pyContainsVal
    dsimp only
    rw [hmt]
    rfl
  have hget : pyGetItemKey (.obj kvs) "messageType" =
      .ok (MT.wire .PLUGIN_UNLOAD_REQUEST) := by
    unfold pyGetItemKey
    dsimp only
    rw [hmt]
  refine ⟨?_, rfl, rfl, ?_⟩
  · unfold recvStep
    dsimp only
    rw [hcont]
    simp only [except_bind_ok, Bool.not_true]
    rw [if_neg Bool.false_ne_true]
    rw [hget]
    simp only [except_bind_ok]
    have hpe : pyEq (MT.wire .PLUGIN_UNLOAD_REQUEST)
        (MT.wire .PLUGIN_UNLOAD_REQUEST) = true := rfl
    rw [if_pos hpe]
    rfl
  · intro i n hi
    refine ⟨0, ?_, rfl⟩
    cases i with
    | zero => exact absurd hi (by simp)
    | succ k => exact Nat.succ_pos k

/-- Witness for claim C6 on a concrete session and message. -/
theorem c6_unload_ack_before_close_witness :
    recvStep
        { plugin_id := "pl", running := true, adapters := [], notifiers := [],
          api_handlers := [] }
        (.msg (.obj [("messageType", MT.wire .PLUGIN_UNLOAD_REQUEST)])) =
      .ok { state := { plugin_id := "pl", running := true, adapters := [],
                       notifiers := [], api_handlers := [] },
            outs := [proxySend
              ({ plugin_id := "pl", running := true, adapters := [],
                 notifiers := [], api_handlers := [] } : ProxyState).plugin_id
              .PLUGIN_UNLOAD_RESPONSE []],
            logs := [], spawns := [.closeWorker], ctl := .stop } ∧
    (close_fn { plugin_id := "pl", running := true, adapters := [],
                notifiers := [], api_handlers := [] }).1.running = false ∧
    stepCloseTrace
        { state := { plugin_id := "pl", running := true, adapters := [],
                     notifiers := [], api_handlers := [] },
          outs := [proxySend
            ({ plugin_id := "pl", running := true, adapters := [],
               notifiers := [], api_handlers := [] } : ProxyState).plugin_id
            .PLUGIN_UNLOAD_RESPONSE []],
          logs := [], spawns := [.closeWorker], ctl := .stop } =
      [.send (proxySend
          ({ plugin_id := "pl", running := true, adapters := [],
             notifiers := [], api_handlers := [] } : ProxyState).plugin_id
          .PLUGIN_UNLOAD_RESPONSE []),
       .sleepSeconds (1/2), .clearRunning,
       .closeSocket "manager_socket", .closeSocket "plugin_socket"] ∧
    (∀ i n,
      ([TraceEv.send (proxySend
          ({ plugin_id := "pl", running := true, adapters := [],
             notifiers := [], api_handlers := [] } : ProxyState).plugin_id
          .PLUGIN_UNLOAD_RESPONSE []),
        TraceEv.sleepSeconds (1/2), TraceEv.clearRunning,
        TraceEv.closeSocket "manager_socket",
        TraceEv.closeSocket "plugin_socket"] : List TraceEv).get? i =
          some (.closeSocket n) →
      ∃ jj, jj < i ∧
        ([TraceEv.send (proxySend
            ({ plugin_id := "pl", running := true, adapters := [],
               notifiers := [], api_handlers := [] } : ProxyState).plugin_id
            .PLUGIN_UNLOAD_RESPONSE []),
          TraceEv.sleepSeconds (1/2), TraceEv.clearRunning,
          TraceEv.closeSocket "manager_socket",
          TraceEv.closeSocket "plugin_socket"] : List TraceEv).get? jj =
            some (.send (proxySend
              ({ plugin_id := "pl", running := true, adapters := [],
                 notifiers := [], api_handlers := [] } : ProxyState).plugin_id
              .PLUGIN_UNLOAD_RESPONSE []))) :=
  c6_unload_ack_before_close
    { plugin_id := "pl", running := true, adapters := [], notifiers := [],
      api_handlers := [] }
    [("messageType", MT.wire .PLUGIN_UNLOAD_REQUEST)] rfl

/-- Counterexample to claim C8: a message with the valid plugin-unload
type but missing data still produces a response, and a message with an
unknown messageType whose data is a non-object value raises a TypeError
out of the receive loop. -/
theorem c8_counterexample_router :
    unknownMsgType (.str "bogus") ∧
    recvStep
        { plugin_id := "pl", running := true, adapters := [], notifiers := [],
          api_handlers := [] }
        (.msg (.obj [("messageType", .str "bogus"), ("data", .num 0)])) =
      .error .typeError ∧
    recvStep
        { plugin_id := "pl", running := true, adapters := [], notifiers := [],
          api_handlers := [] }
        (.msg (.obj [("messageType", MT.wire .PLUGIN_UNLOAD_REQUEST)])) =
      .ok { state := { plugin_id := "pl", running := true, adapters := [],
                       notifiers := [], api_handlers := [] },
            outs := [proxySend "pl" .PLUGIN_UNLOAD_RESPONSE []],
            logs := [], spawns := [.closeWorker], ctl := .stop } ∧
    [proxySend "pl" .PLUGIN_UNLOAD_RESPONSE []] ≠ ([] : List OutMsg) := by
  refine ⟨by decide, rfl, rfl, by simp⟩

/-- Claim C8 amended: the receive loop drops without responding, spawning
or raising every message whose messageType is unknown, provided the data
member is a JSON object whose notifierId and adapterId members (when
present) are hashable scalars; and every message with a messageType other
than the plugin-unload request but missing data is logged and dropped.  (A
plugin-unload request missing data still triggers the acknowledgment, and
an unknown-type message with a non-container data value raises TypeError;
see the counterexample.) -/
theorem c8_amended_router_drops (st : ProxyState) (kvs : List (String × JVal)) :
    (∀ mt dkvs, kvs.lookup "messageType" = some mt →
       unknownMsgType mt →
       kvs.lookup "data" = some (.obj dkvs) →
       (∀ x, dkvs.lookup "notifierId" = some x → x.isScalar = true) →
       (∀ x, dkvs.lookup "adapterId" = some x → x.isScalar = true) →
       ∃ res, recvStep st (.msg (.obj kvs)) = .ok res ∧
         res.outs = [] ∧ res.spawns = [] ∧ res.ctl = .next ∧ res.state = st) ∧
    (∀ mt, kvs.lookup "messageType" = some mt →
       pyEq mt (MT.wire .PLUGIN_UNLOAD_REQUEST) = false →
       kvs.lookup "data" = none →
       recvStep st (.msg (.obj kvs)) =
         .ok { state := st, outs := [],
               logs := ["AddonManagerProxy: data not present in message"],
               spawns := [], ctl := .next }) := by
  constructor
  · intro mt dkvs hmt hunk hdata hnid haid
    have hq : ∀ m, m ∈ routedTypes → pyEq mt (MT.wire m) = false := hunk
    have hcont : pyContains "messageType" (.obj kvs) = .ok true := by
      unfold pyContains pyContainsVal
      dsimp only
      rw [hmt]
      rfl
    have hget : pyGetItemKey (.obj kvs) "messageType" = .ok mt := by
      unfold pyGetItemKey
      dsimp only
      rw [hmt]
    have hcd : pyContains "data" (.obj kvs) = .ok true := by
      unfold pyContains pyContainsVal
      dsimp only
      rw [hdata]
      rfl
    have hgd : pyGetItemKey (.obj kvs) "data" = .ok (.obj dkvs) := by
      unfold pyGetItemKey
      dsimp only
      rw [hdata]
    unfold recvStep
    dsimp only
    rw [hcont]
    simp only [except_bind_ok, Bool.not_true]
    rw [if_neg Bool.false_ne_true]
    rw [hget]
    simp only [except_bind_ok]
    rw [hq .PLUGIN_UNLOAD_REQUEST (by decide), if_neg Bool.false_ne_true]
    rw [hcd]
    simp only [except_bind_ok, Bool.not_true]
    rw [if_neg Bool.false_ne_true]
    rw [hq .API_HANDLER_UNLOAD_REQUEST (by decide), if_neg Bool.false_ne_true]
    rw [hq .API_HANDLER_API_REQUEST (by decide), if_neg Bool.false_ne_true]
    rw [hgd]
    simp only [except_bind_ok]
    cases hn : dkvs.lookup "notifierId" with
    | some x =>
        have hx := hnid x hn
        have hcn : pyContains "notifierId" (.obj dkvs) = .ok true := by
          unfold pyContains pyContainsVal
          dsimp only
          rw [hn]
          rfl
        rw [hcn]
        simp only [except_bind_ok]
        simp only [eq_self_iff_true, if_true]
        have hgn : pyGetItemKey (.obj dkvs) "notifierId" = .ok x := by
          unfold pyGetItemKey
          dsimp only
          rw [hn]
        rw [hgn]
        simp only [except_bind_ok]
        cases x with
        | arr xs => simp [JVal.isScalar] at hx
        | obj xs => simp [JVal.isScalar] at hx
        | null =>
            have hdg : pyDictGet st.notifiers JVal.null = .ok none := rfl
            rw [hdg]
            simp only [except_bind_ok]
            exact ⟨_, rfl, rfl, rfl, rfl, rfl⟩
        | bool b =>
            have hdg : pyDictGet st.notifiers (.bool b) = .ok none := rfl
            rw [hdg]
            simp only [except_bind_ok]
            exact ⟨_, rfl, rfl, rfl, rfl, rfl⟩
        | num q' =>
            have hdg : pyDictGet st.notifiers (.num q') = .ok none := rfl
            rw [hdg]
            simp only [except_bind_ok]
            exact ⟨_, rfl, rfl, rfl, rfl, rfl⟩
        | str s =>
            cases hlook : st.notifiers.lookup s with
            | none =>
                have hdg : pyDictGet st.notifiers (.str s) = .ok none := by
                  unfold pyDictGet
                  dsimp only
                  rw [hlook]
                rw [hdg]
                simp only [except_bind_ok]
                exact ⟨_, rfl, rfl, rfl, rfl, rfl⟩
            | some ntf =>
                have hdg : pyDictGet st.notifiers (.str s) = .ok (some ntf) := by
                  unfold pyDictGet
                  dsimp only
                  rw [hlook]
                rw [hdg]
                simp only [except_bind_ok]
                try dsimp only
                rw [hq .NOTIFIER_UNLOAD_REQUEST (by decide), if_neg Bool.false_ne_true]
                rw [hq .OUTLET_NOTIFY_REQUEST (by decide), if_neg Bool.false_ne_true]
                exact ⟨_, rfl, rfl, rfl, rfl, rfl⟩
    | none =>
        have hcn : pyContains "notifierId" (.obj dkvs) = .ok false := by
          unfold pyContains pyContainsVal
          dsimp only
          rw [hn]
          rfl
        rw [hcn]
        simp only [except_bind_ok]
        rw [if_neg Bool.false_ne_true]
        cases ha : dkvs.lookup "adapterId" with
        | none =>
            have hca : pyContains "adapterId" (.obj dkvs) = .ok false := by
              unfold pyContains pyContainsVal
              dsimp only
              rw [ha]
              rfl
            rw [hca]
            simp only [except_bind_ok, Bool.not_false]
            simp only [eq_self_iff_true, if_true]
            exact ⟨_, rfl, rfl, rfl, rfl, rfl⟩
        | some y =>
            have hy := haid y ha
            have hca : pyContains "adapterId" (.obj dkvs) = .ok true := by
              unfold pyContains pyContainsVal
              dsimp only
              rw [ha]
              rfl
            rw [hca]
            simp only [except_bind_ok, Bool.not_true]
            rw [if_neg Bool.false_ne_true]
            have hga : pyGetItemKey (.obj dkvs) "adapterId" = .ok y := by
              unfold pyGetItemKey
              dsimp only
              rw [ha]
            rw [hga]
            simp only [except_bind_ok]
            cases y with
            | arr xs => simp [JVal.isScalar] at hy
            | obj xs => simp [JVal.isScalar] at hy
            | null =>
                have hdg : pyDictGet st.adapters JVal.null = .ok none := rfl
                rw [hdg]
                simp only [except_bind_ok]
                exact ⟨_, rfl, rfl, rfl, rfl, rfl⟩
            | bool b =>
                have hdg : pyDictGet st.adapters (.bool b) = .ok none := rfl
                rw [hdg]
                simp only [except_bind_ok]
                exact ⟨_, rfl, rfl, rfl, rfl, rfl⟩
            | num q' =>
                have hdg : pyDictGet st.adapters (.num q') = .ok none := rfl
                rw [hdg]
                simp only [except_bind_ok]
                exact ⟨_, rfl, rfl, rfl, rfl, rfl⟩
            | str s =>
                cases hlook : st.adapters.lookup s with
                | none =>
                    have hdg : pyDictGet st.adapters (.str s) = .ok none := by
                      unfold pyDictGet
                      dsimp only
                      rw [hlook]
                    rw [hdg]
                    simp only [except_bind_ok]
                    exact ⟨_, rfl, rfl, rfl, rfl, rfl⟩
                | some adapter =>
                    have hdg : pyDictGet st.adapters (.str s) = .ok (some adapter) := by
                      unfold pyDictGet
                      dsimp only
                      rw [hlook]
                    rw [hdg]
                    simp only [except_bind_ok]
                    try dsimp only
                    rw [hq .ADAPTER_START_PAIRING_COMMAND (by decide),
                      if_neg Bool.false_ne_true]
                    rw [hq .ADAPTER_CANCEL_PAIRING_COMMAND (by decide),
                      if_neg Bool.false_ne_true]
                    rw [hq .ADAPTER_UNLOAD_REQUEST (by decide),
                      if_neg Bool.false_ne_true]
                    rw [if_neg Bool.false_ne_true]
                    cases hd : dkvs.lookup "deviceId" with
                    | none =>
                        have hcdev : pyContains "deviceId" (.obj dkvs) = .ok false := by
                          unfold pyContains pyContainsVal
                          dsimp only
                          rw [hd]
                          rfl
                        rw [hcdev]
                        simp only [except_bind_ok, except_pure, Bool.not_false]
                        simp only [eq_self_iff_true, if_true]
                        exact ⟨_, rfl, rfl, rfl, rfl, rfl⟩
                    | some z =>
                        have hcdev : pyContains "deviceId" (.obj dkvs) = .ok true := by
                          unfold pyContains pyContainsVal
                          dsimp only
                          rw [hd]
                          rfl
                        rw [hcdev]
                        simp only [except_bind_ok, except_pure, Bool.not_true]
                        rw [if_neg Bool.false_ne_true]
                        have hgdev : pyGetItemKey (.obj dkvs) "deviceId" = .ok z := by
                          unfold pyGetItemKey
                          dsimp only
                          rw [hd]
                        rw [hgdev]
                        simp only [except_bind_ok]
                        rw [hq .ADAPTER_REMOVE_DEVICE_REQUEST (by decide),
                          if_neg Bool.false_ne_true]
                        rw [hq .ADAPTER_CANCEL_REMOVE_DEVICE_COMMAND (by decide),
                          if_neg Bool.false_ne_true]
                        rw [hq .DEVICE_SET_PROPERTY_COMMAND (by decide),
                          if_neg Bool.false_ne_true]
                        rw [hq .DEVICE_REQUEST_ACTION_REQUEST (by decide),
                          if_neg Bool.false_ne_true]
                        rw [hq .DEVICE_REMOVE_ACTION_REQUEST (by decide),
                          if_neg Bool.false_ne_true]
                        rw [hq .DEVICE_SET_PIN_REQUEST (by decide),
                          if_neg Bool.false_ne_true]
                        rw [hq .DEVICE_SET_CREDENTIALS_REQUEST (by decide),
                          if_neg Bool.false_ne_true]
                        exact ⟨_, rfl, rfl, rfl, rfl, rfl⟩
  · intro mt hmt hne hdata
    have hcont : pyContains "messageType" (.obj kvs) = .ok true := by
      unfold pyContains pyContainsVal
      dsimp only
      rw [hmt]
      rfl
    have hget : pyGetItemKey (.obj kvs) "messageType" = .ok mt := by
      unfold pyGetItemKey
      dsimp only
      rw [hmt]
    have hcd : pyContains "data" (.obj kvs) = .ok false := by
      unfold pyContains pyContainsVal
      dsimp only
      rw [hdata]
      rfl
    unfold recvStep
    dsimp only
    rw [hcont]
    simp only [except_bind_ok, Bool.not_true]
    rw [if_neg Bool.false_ne_true]
    rw [hget]
    simp only [except_bind_ok]
    rw [hne, if_neg Bool.false_ne_true]
    rw [hcd]
    simp only [except_bind_ok, Bool.not_false]
    simp only [eq_self_iff_true, if_true]
    rfl

/-- Witness for the amended claim C8: an unknown-type message with an
object data member referencing an unrecognized adapter is dropped without
any response, spawn or exception, and a recognized-type message missing
data is logged and dropped. -/
theorem c8_amended_router_drops_witness :
    (∃ res,
      recvStep
          { plugin_id := "pl", running := true, adapters := [], notifiers := [],
            api_handlers := [] }
          (.msg (.obj [("messageType", .str "bogus"),
                       ("data", .obj [("adapterId", .str "nope")])])) =
        .ok res ∧
      res.outs = [] ∧ res.spawns = [] ∧ res.ctl = .next ∧
      res.state =
        { plugin_id := "pl", running := true, adapters := [], notifiers := [],
          api_handlers := [] }) ∧
    recvStep
        { plugin_id := "pl", running := true, adapters := [], notifiers := [],
          api_handlers := [] }
        (.msg (.obj [("messageType", MT.wire .ADAPTER_START_PAIRING_COMMAND)])) =
      .ok { state := { plugin_id := "pl", running := true, adapters := [],
                       notifiers := [], api_handlers := [] },
            outs := [],
            logs := ["AddonManagerProxy: data not present in message"],
            spawns := [], ctl := .next } := by
  constructor
  · refine (c8_amended_router_drops
      { plugin_id := "pl", running := true, adapters := [], notifiers := [],
        api_handlers := [] }
      [("messageType", .str "bogus"), ("data", .obj [("adapterId", .str "nope")])]).1
      (.str "bogus") [("adapterId", .str "nope")] rfl (by decide) rfl ?_ ?_
    · intro x hx
      simp [List.lookup] at hx
    · intro x hx
      injection hx with h
      rw [← h]
      rfl
  · exact (c8_amended_router_drops
      { plugin_id := "pl", running := true, adapters := [], notifiers := [],
        api_handlers := [] }
      [("messageType", MT.wire .ADAPTER_START_PAIRING_COMMAND)]).2
      (MT.wire .ADAPTER_START_PAIRING_COMMAND) rfl rfl rfl

end GatewayAddon
